import Mathlib

/-!
Shallow embedding of the turn-resolution core of the Roland-Gamos repository:
the multiplayer `GameService`/`GameManager` (src/unnamed/part_014, part_011),
the solo `SoloManager` (src/server/SoloManager.ts), the `ValidationService` /
`WikidataService` / `MusicBrainzService` caching layer (src/unnamed/part_015,
src/services/MusicBrainzService.ts) and the `ScoringService`
(src/unnamed/part_015).

Conventions of the embedding:
* JavaScript `Date.now()` is threaded as an explicit `now : Nat` parameter.
* JavaScript `x || y` truthiness on optional strings / numbers is modelled by
  `jsOrStr` / `jsTruthyNat` (the empty string and `0` are falsy).
* `async` methods that may reject are modelled with `Except Unit`; the
  awaited result of `ValidationService.validateMove` is passed to the state
  machine as an `Except Unit ValidationResult` parameter, consulted exactly
  at the program point where the source awaits it.
* Floating-point bonus constants of the scoring engine are modelled as exact
  rationals; `Math.round` is `jsRound` (round half towards positive
  infinity), `Math.min` is `min`.
* The `timestamp` fields produced by `new Date()` / `Date.now()` inside
  record constructors carry the same `now` parameter.
-/

/-- JS `a || b` for an optional string: `none` and the empty string are falsy. -/
def jsOrStr (a : Option String) (b : String) : String :=
  match a with
  | none => b
  | some s => if s = "" then b else s

/-- JS truthiness of an optional string: `none` and `""` are falsy. -/
def jsTruthyStr (a : Option String) : Bool :=
  match a with
  | none => false
  | some s => s ≠ ""

/-- JS truthiness of an optional numeric field: `none` and `0` are falsy. -/
def jsTruthyNat (a : Option Nat) : Bool :=
  match a with
  | none => false
  | some n => n ≠ 0

/-- JS `Math.round` on an exact rational: round half towards `+∞`. -/
def jsRound (q : ℚ) : ℤ := ⌊q + 1/2⌋

/-- JS `String.prototype.toLowerCase` (ASCII range), written by structural
recursion over the character list so that concrete instances evaluate;
extensionally this is `String.toLower`. -/
def strToLower (s : String) : String := ⟨s.data.map Char.toLower⟩

/-- JS `String.prototype.trim`: strip leading and trailing whitespace,
written by structural recursion; extensionally this is `String.trim`. -/
def strTrim (s : String) : String :=
  ⟨((s.data.dropWhile Char.isWhitespace).reverse.dropWhile
      Char.isWhitespace).reverse⟩

/-- Lexicographic comparison of character lists by code point. -/
def charListLt : List Char → List Char → Bool
  | [], [] => false
  | [], _ :: _ => true
  | _ :: _, [] => false
  | a :: as, b :: bs =>
    if a.toNat < b.toNat then true
    else if b.toNat < a.toNat then false
    else charListLt as bs

/-- JS `<` on strings (lexicographic by code unit), written by structural
recursion; extensionally this is `String.lt`. -/
def strLt (a b : String) : Bool := charListLt a.data b.data

/-- Decidable equality for the `Except` results used throughout. -/
instance {ε α : Type} [DecidableEq ε] [DecidableEq α] :
    DecidableEq (Except ε α) := fun a b =>
  match a, b with
  | .ok x, .ok y =>
    if h : x = y then .isTrue (by rw [h]) else .isFalse (by simp [h])
  | .error x, .error y =>
    if h : x = y then .isTrue (by rw [h]) else .isFalse (by simp [h])
  | .ok _, .error _ => .isFalse (by simp)
  | .error _, .ok _ => .isFalse (by simp)

/-! ## Data model (src/types/Game.ts, Player.ts, Turn.ts) -/

/-- `GameStatus` from src/types/Game.ts. -/
inductive GameStatus
  | waiting
  | in_progress
  | finished
  deriving DecidableEq, Repr

/-- `CanonicalArtist` from src/types/Game.ts: display name, optional
MusicBrainz id, optional Wikidata QID. -/
structure CanonicalArtist where
  name : String
  mbid : Option String := none
  qid : Option String := none
  deriving DecidableEq, Repr

/-- `Player` from src/types/Player.ts (the optional `jokers` bag is kept as
an opaque marker field `jokers`, an uninterpreted `Option Unit`, since no
core operation reads it). -/
structure Player where
  id : String
  name : String
  isEliminated : Bool
  jokers : Option Unit := some ()
  deriving DecidableEq, Repr

/-- `ValidationSource` from src/types/Turn.ts. -/
inductive ValidationSource
  | musicbrainz
  | wikidata_fallback
  deriving DecidableEq, Repr

/-- `InvalidReason` from src/types/Turn.ts. -/
inductive InvalidReason
  | REPEAT
  | TIMEOUT
  | NO_RELATION
  | NOT_FOUND
  | SINGLE_CIRCULAR
  | OTHER
  deriving DecidableEq, Repr

/-- `Turn` from src/types/Turn.ts (`timestamp : Date` becomes the epoch-ms
`Nat` in force when `createTurn` runs). -/
structure Turn where
  playerId : String
  artistName : String
  isValid : Bool
  timestamp : Nat
  attemptNumber : Option Nat := none
  validationSource : Option ValidationSource := none
  invalidReason : Option InvalidReason := none
  deriving DecidableEq, Repr

/-- `createTurn` from src/types/Turn.ts. -/
def createTurn (playerId artistName : String) (isValid : Bool)
    (attemptNumber : Option Nat) (validationSource : Option ValidationSource)
    (invalidReason : Option InvalidReason) (now : Nat) : Turn :=
  { playerId := playerId
    artistName := artistName
    isValid := isValid
    timestamp := now
    attemptNumber := attemptNumber
    validationSource := validationSource
    invalidReason := invalidReason }

/-- `Game` from src/types/Game.ts. -/
structure Game where
  id : String
  status : GameStatus
  players : List Player
  turns : List Turn
  currentPlayerIndex : Nat
  lastArtistName : Option String
  lastArtist : Option CanonicalArtist := none
  usedArtists : List String
  currentTurnEndsAt : Option Nat := none
  attemptsUsed : Option Nat := none
  deriving DecidableEq, Repr

/-! ## Validation result (src/unnamed/part_015, `ValidationService`) -/

/-- The `flags` bag on a `ValidationResult`. -/
structure ValidationFlags where
  singleCircularCollab : Bool := false
  deriving DecidableEq, Repr

/-- `ValidationResult` from `ValidationService` (src/unnamed/part_015).
The source field `exists` is spelled `existsArtist` because `exists` is a
Lean keyword. -/
structure ValidationResult where
  existsArtist : Bool
  validRelation : Bool
  source : Option ValidationSource := none
  canonical : CanonicalArtist
  flags : Option ValidationFlags := none
  reason : Option String := none
  deriving DecidableEq, Repr

/-! ## GameService (src/unnamed/part_014) -/

namespace GameService

/-- `TURN_DURATION_MS` (30 seconds). -/
def TURN_DURATION_MS : Nat := 30000

/-- `MAX_ATTEMPTS_PER_TURN`. -/
def MAX_ATTEMPTS_PER_TURN : Nat := 2

/-- `ProposalResult` from `GameService`. -/
structure ProposalResult where
  isValid : Bool
  turn : Turn
  game : Game
  message : String
  deriving DecidableEq, Repr

/-- `GameService.getCanonicalId`: MBID if truthy, otherwise the lower-cased
trimmed display name. The Wikidata `qid` field is not consulted. -/
def getCanonicalId (canonical : CanonicalArtist) : String :=
  jsOrStr canonical.mbid (strTrim (strToLower canonical.name))

/-- `GameService.isArtistUsed`: case-insensitive membership of the canonical
id in `usedArtists`. -/
def isArtistUsed (game : Game) (canonical : CanonicalArtist) : Bool :=
  let canonicalId := getCanonicalId canonical
  game.usedArtists.any (fun used => strToLower used = strToLower canonicalId)

/-- `GameService.isTurnExpired` at instant `now` (a falsy `currentTurnEndsAt`
means not expired). -/
def isTurnExpired (game : Game) (now : Nat) : Bool :=
  if jsTruthyNat game.currentTurnEndsAt then
    decide (now ≥ game.currentTurnEndsAt.getD 0)
  else false

/-- Number of non-eliminated players, i.e. the length of
`players.filter (p => !p.isEliminated)` used throughout `GameService`. -/
def activeCount (players : List Player) : Nat :=
  (players.filter (fun p => ¬ p.isEliminated)).length

/-- `GameService.eliminatePlayer`: flip `isEliminated` on the matching
player; transition to `FINISHED` when at most one active player remains.
The `reason` argument is accepted but (as in the source) unused. -/
def eliminatePlayer (game : Game) (playerId : String)
    (_reason : Option InvalidReason) : Game :=
  let updatedPlayers := game.players.map (fun player =>
    if player.id = playerId then { player with isEliminated := true } else player)
  let newStatus :=
    if activeCount updatedPlayers ≤ 1 then GameStatus.finished else game.status
  { game with players := updatedPlayers, status := newStatus }

/-- JS `game.players[i]` where the source guarantees `i < players.length`
(indices are always reduced `% players.length`); out of range we return a
dummy non-eliminated player, which stops the scan loop exactly as the
source's crash-free range does. -/
def playerAt (players : List Player) (i : Nat) : Player :=
  players.getD i { id := "", name := "", isEliminated := false }

/-- The `while` loop of `GameService.moveToNextPlayer`: advance `nextIndex`
while it points at an eliminated player and fewer than `players.length`
hops were made. -/
def moveLoop (players : List Player) (nextIndex attempts : Nat) : Nat :=
  if (playerAt players nextIndex).isEliminated ∧ attempts < players.length then
    moveLoop players ((nextIndex + 1) % players.length) (attempts + 1)
  else nextIndex
termination_by players.length - attempts
decreasing_by
  rename_i h
  omega

/-- `GameService.moveToNextPlayer`: round-robin scan for the next
non-eliminated player; finish the game when at most one player is active. -/
def moveToNextPlayer (game : Game) : Game :=
  let nextIndex := moveLoop game.players
    ((game.currentPlayerIndex + 1) % game.players.length) 0
  if activeCount game.players ≤ 1 then
    { game with
        status := GameStatus.finished
        currentPlayerIndex := nextIndex
        currentTurnEndsAt := none
        attemptsUsed := some 0 }
  else
    { game with currentPlayerIndex := nextIndex }

/-- `GameService.startTurn`: fresh 30 s deadline and `attemptsUsed = 0`; if
the designated holder is already eliminated (or absent), defensively advance
instead. -/
def startTurn (game : Game) (now : Nat) : Game :=
  match game.players.get? game.currentPlayerIndex with
  | none => moveToNextPlayer game
  | some currentPlayer =>
    if currentPlayer.isEliminated then moveToNextPlayer game
    else
      { game with
          currentTurnEndsAt := some (now + TURN_DURATION_MS)
          attemptsUsed := some 0 }

/-- `GameService.proposeArtist`. The awaited outcome of
`validationService.validateMove` is the `validation` parameter: it is
consulted (and an exception from it propagated) exactly at step 7 of the
source, after the status / holder / timer / budget guards, which in the
source run before the validation chain is invoked. Messages are ASCII
abbreviations of the French source strings. -/
def proposeArtist (game : Game) (playerId artistName : String) (now : Nat)
    (validation : Except Unit ValidationResult) : Except Unit ProposalResult :=
  -- 1) the game must be in progress
  if game.status ≠ GameStatus.in_progress then
    .ok { isValid := false
          turn := createTurn playerId artistName false none none
            (some .OTHER) now
          game := game
          message := "La partie n est pas en cours" }
  else
    -- 2) it must be the submitting player's turn
    match game.players.get? game.currentPlayerIndex with
    | none => .error ()  -- JS TypeError reading `.id` of undefined
    | some currentPlayer =>
      if currentPlayer.id ≠ playerId then
        .ok { isValid := false
              turn := createTurn playerId artistName false none none
                (some .OTHER) now
              game := game
              message := "Ce n est pas le tour de ce joueur" }
      -- 3) the player must not be eliminated
      else if currentPlayer.isEliminated then
        .ok { isValid := false
              turn := createTurn playerId artistName false none none
                (some .OTHER) now
              game := game
              message := "Le joueur est elimine" }
      -- 4) timer check (TIMEOUT)
      else if isTurnExpired game now then
        let updatedGame := eliminatePlayer game playerId (some .TIMEOUT)
        let turn := createTurn playerId artistName false
          (some (game.attemptsUsed.getD 0)) none (some .TIMEOUT) now
        .ok { isValid := false
              turn := turn
              game := { updatedGame with turns := updatedGame.turns ++ [turn] }
              message := "Temps ecoule, joueur elimine" }
      else
        -- 5) attempt budget check
        let attemptsUsed := game.attemptsUsed.getD 0 + 1
        if attemptsUsed > MAX_ATTEMPTS_PER_TURN then
          let updatedGame := eliminatePlayer game playerId (some .OTHER)
          let turn := createTurn playerId artistName false
            (some attemptsUsed) none (some .OTHER) now
          .ok { isValid := false
                turn := turn
                game := { updatedGame with turns := updatedGame.turns ++ [turn] }
                message := "Nombre maximum de tentatives atteint" }
        else
          -- 6) normalize the proposed name
          let normalizedArtistName := strTrim artistName
          -- 7) run the validation chain (exceptions propagate)
          match validation with
          | .error e => .error e
          | .ok validation =>
            -- 8) REPEAT rule: hard fail, immediate elimination
            if validation.existsArtist ∧ isArtistUsed game validation.canonical then
              let updatedGame := eliminatePlayer game playerId (some .REPEAT)
              let turn := createTurn playerId normalizedArtistName false
                (some attemptsUsed) none (some .REPEAT) now
              .ok { isValid := false
                    turn := turn
                    game := { updatedGame with turns := updatedGame.turns ++ [turn] }
                    message := "Artiste deja utilise, joueur elimine" }
            -- 9) the artist must exist
            else if ¬ validation.existsArtist then
              let updatedGame := { game with attemptsUsed := some attemptsUsed }
              let turn := createTurn playerId normalizedArtistName false
                (some attemptsUsed) none (some .NOT_FOUND) now
              if attemptsUsed ≥ MAX_ATTEMPTS_PER_TURN then
                let eliminatedGame := eliminatePlayer updatedGame playerId (some .NOT_FOUND)
                .ok { isValid := false
                      turn := turn
                      game := { eliminatedGame with
                                  turns := eliminatedGame.turns ++ [turn] }
                      message := "Artiste non trouve, joueur elimine" }
              else
                .ok { isValid := false
                      turn := turn
                      game := { updatedGame with turns := updatedGame.turns ++ [turn] }
                      message := "Artiste non trouve, retry" }
            -- 10) the relation (collaboration) must hold
            else if ¬ validation.validRelation then
              let updatedGame := { game with attemptsUsed := some attemptsUsed }
              let turn := createTurn playerId normalizedArtistName false
                (some attemptsUsed) none (some .NO_RELATION) now
              if attemptsUsed ≥ MAX_ATTEMPTS_PER_TURN then
                let eliminatedGame := eliminatePlayer updatedGame playerId (some .NO_RELATION)
                .ok { isValid := false
                      turn := turn
                      game := { eliminatedGame with
                                  turns := eliminatedGame.turns ++ [turn] }
                      message := "Aucune collaboration trouvee, joueur elimine" }
              else
                .ok { isValid := false
                      turn := turn
                      game := { updatedGame with turns := updatedGame.turns ++ [turn] }
                      message := "Aucune collaboration trouvee, retry" }
            -- 11) SINGLE_CIRCULAR rule: invalid but retry allowed
            else if (validation.flags.getD {}).singleCircularCollab then
              let updatedGame := { game with attemptsUsed := some attemptsUsed }
              let turn := createTurn playerId normalizedArtistName false
                (some attemptsUsed) validation.source (some .SINGLE_CIRCULAR) now
              if attemptsUsed ≥ MAX_ATTEMPTS_PER_TURN then
                let eliminatedGame :=
                  eliminatePlayer updatedGame playerId (some .SINGLE_CIRCULAR)
                .ok { isValid := false
                      turn := turn
                      game := { eliminatedGame with
                                  turns := eliminatedGame.turns ++ [turn] }
                      message := "Une seule collaboration connue, joueur elimine" }
              else
                -- retry allowed: neither lastArtist nor usedArtists updated
                .ok { isValid := false
                      turn := turn
                      game := { updatedGame with turns := updatedGame.turns ++ [turn] }
                      message := "Une seule collaboration connue, retry" }
            -- 12) valid proposal: accept
            else
              let canonicalId := getCanonicalId validation.canonical
              let updatedGame := moveToNextPlayer
                { game with
                    turns := game.turns ++
                      [createTurn playerId normalizedArtistName true
                        (some attemptsUsed) validation.source none now]
                    lastArtist := some validation.canonical
                    lastArtistName := some validation.canonical.name
                    usedArtists := game.usedArtists ++ [canonicalId] }
              let finalGame := startTurn updatedGame now
              .ok { isValid := true
                    turn := createTurn playerId normalizedArtistName true
                      (some attemptsUsed) validation.source none now
                    game := finalGame
                    message := "Collaboration validee" }

end GameService

/-! ## GameManager timer path (src/unnamed/part_011) -/

namespace GameManager

/-- `GameManager.handleTurnTimeout` restricted to its pure effect on the
stored `Game` (the surrounding map bookkeeping and timer rescheduling are
transport concerns): re-checks status and expiry, eliminates the current
player with reason `TIMEOUT`, records the turn, then advances via
`moveToNextPlayer` and opens the next turn via `startTurn` when the game is
still in progress. -/
def handleTurnTimeout (game : Game) (now : Nat) : Game :=
  if game.status ≠ GameStatus.in_progress ∨ ¬ GameService.isTurnExpired game now then
    game
  else
    match game.players.get? game.currentPlayerIndex with
    | none => game
    | some currentPlayer =>
      if currentPlayer.isEliminated then game
      else
        let updatedGame := GameService.eliminatePlayer game currentPlayer.id
          (some .TIMEOUT)
        let turn := createTurn currentPlayer.id "" false
          (some (game.attemptsUsed.getD 0)) none (some .TIMEOUT) now
        let gameWithTurn := { updatedGame with turns := updatedGame.turns ++ [turn] }
        let nextGame := GameService.moveToNextPlayer gameWithTurn
        if nextGame.status = GameStatus.in_progress then
          GameService.startTurn nextGame now
        else
          { nextGame with currentTurnEndsAt := none, attemptsUsed := some 0 }

end GameManager

/-! ## ScoringService (src/unnamed/part_015) -/

/-- `PopularityCategory` from `PopularityCategoryProvider`. -/
inductive PopularityCategory
  | ultra_mainstream
  | mainstream
  | connu
  | niche
  | underground
  deriving DecidableEq, Repr

/-- `ScoringDetails` from src/types/SoloMove.ts; the floating-point bonus
factors are exact rationals, `finalScore` is the capped integer. -/
structure ScoringDetails where
  basePoints : ℚ
  pairBonus : ℚ
  degreeBonus : ℚ
  categoryBonus : ℚ
  timeBonus : ℚ
  chainBonus : ℚ
  finalScore : ℤ
  pairFamilyCount : Nat
  degree : Nat
  category : PopularityCategory
  timeSpent : Nat
  chainLength : Nat
  deriving DecidableEq, Repr

/-- The three read-only popularity lookup providers consumed by
`ScoringService.calculateScore` (pair-frequency, degree, category), passed
explicitly instead of as module-level singletons. -/
structure Providers where
  getPairFamilyCount : String → String → Nat
  getDegree : String → Nat
  getCategory : String → Nat → PopularityCategory

namespace ScoringService

/-- `BASE_POINTS`. -/
def BASE_POINTS : ℚ := 100

/-- `SCORE_CAP`. -/
def SCORE_CAP : ℤ := 280

/-- `ScoringService.calculatePairBonus`. -/
def calculatePairBonus (pairFamilyCount : Nat) : ℚ :=
  if pairFamilyCount = 0 then 1.00
  else if pairFamilyCount = 1 then 1.30
  else if 2 ≤ pairFamilyCount ∧ pairFamilyCount ≤ 3 then 1.18
  else if 4 ≤ pairFamilyCount ∧ pairFamilyCount ≤ 7 then 1.08
  else if 8 ≤ pairFamilyCount ∧ pairFamilyCount ≤ 15 then 1.03
  else 1.00

/-- `ScoringService.calculateDegreeBonus` (the `degree >= 0` half of the
first source guard is vacuous on `Nat`). -/
def calculateDegreeBonus (degree : Nat) : ℚ :=
  if degree ≤ 10 then 1.05
  else if 11 ≤ degree ∧ degree ≤ 25 then 1.03
  else if 26 ≤ degree ∧ degree ≤ 60 then 1.01
  else 1.00

/-- `ScoringService.calculateCategoryBonus`. -/
def calculateCategoryBonus (category : PopularityCategory) : ℚ :=
  match category with
  | .ultra_mainstream => 1.00
  | .mainstream => 1.02
  | .connu => 1.04
  | .niche => 1.08
  | .underground => 1.12

/-- `ScoringService.calculateTimeBonus`. -/
def calculateTimeBonus (timeSpentSeconds : Nat) : ℚ :=
  if timeSpentSeconds ≤ 5 then 1.20
  else if 6 ≤ timeSpentSeconds ∧ timeSpentSeconds ≤ 10 then 1.12
  else if 11 ≤ timeSpentSeconds ∧ timeSpentSeconds ≤ 20 then 1.06
  else if 21 ≤ timeSpentSeconds ∧ timeSpentSeconds ≤ 35 then 1.02
  else 1.00

/-- `ScoringService.calculateChainBonus`: tier `floor((turn-1)/5)`, bonus
`1 + min(0.20, 0.05 × tier)`. -/
def calculateChainBonus (turnNumber : Nat) : ℚ :=
  let palier : Nat := (turnNumber - 1) / 5
  let bonus : ℚ := min 0.20 (0.05 * (palier : ℚ))
  1 + bonus

/-- `ScoringService.calculateScore`: the pure composite score of a validated
move, reading the three popularity providers. -/
def calculateScore (providers : Providers)
    (previousArtistMbid currentArtistMbid : String)
    (turnNumber timeSpentSeconds : Nat) : ScoringDetails :=
  let pairFamilyCount :=
    providers.getPairFamilyCount previousArtistMbid currentArtistMbid
  let pairBonus := calculatePairBonus pairFamilyCount
  let degree := providers.getDegree currentArtistMbid
  let degreeBonus := calculateDegreeBonus degree
  let category := providers.getCategory currentArtistMbid degree
  let categoryBonus := calculateCategoryBonus category
  let timeBonus := calculateTimeBonus timeSpentSeconds
  let chainBonus := calculateChainBonus turnNumber
  let rawScore :=
    BASE_POINTS * pairBonus * degreeBonus * categoryBonus * timeBonus * chainBonus
  let finalScore := min (jsRound rawScore) SCORE_CAP
  { basePoints := BASE_POINTS
    pairBonus := pairBonus
    degreeBonus := degreeBonus
    categoryBonus := categoryBonus
    timeBonus := timeBonus
    chainBonus := chainBonus
    finalScore := finalScore
    pairFamilyCount := pairFamilyCount
    degree := degree
    category := category
    timeSpent := timeSpentSeconds
    chainLength := turnNumber }

end ScoringService

/-! ## Solo run data model (src/types/SoloRun.ts, SoloMove.ts) -/

/-- `SoloRunStatus`. -/
inductive SoloRunStatus
  | in_progress
  | finished
  deriving DecidableEq, Repr

/-- End reasons of a solo run (`SoloRun.endReason`). -/
inductive SoloEndReason
  | INVALID_FEAT
  | REPEAT
  | TIMEOUT
  | OTHER
  deriving DecidableEq, Repr

/-- Invalid-move reasons of a solo move (`SoloMove.invalidReason`). -/
inductive SoloInvalidReason
  | INVALID_FEAT
  | REPEAT
  | TIMEOUT
  | NOT_FOUND
  | OTHER
  deriving DecidableEq, Repr

/-- `SoloMove` from src/types/SoloMove.ts. -/
structure SoloMove where
  turn : Nat
  artist : CanonicalArtist
  previousArtist : CanonicalArtist
  isValid : Bool
  timestamp : Nat
  validationSource : Option ValidationSource := none
  invalidReason : Option SoloInvalidReason := none
  scoring : Option ScoringDetails := none
  deriving DecidableEq, Repr

/-- `createSoloMove` from src/types/SoloMove.ts. -/
def createSoloMove (turn : Nat) (artist previousArtist : CanonicalArtist)
    (isValid : Bool) (validationSource : Option ValidationSource)
    (invalidReason : Option SoloInvalidReason)
    (scoring : Option ScoringDetails) (now : Nat) : SoloMove :=
  { turn := turn
    artist := artist
    previousArtist := previousArtist
    isValid := isValid
    timestamp := now
    validationSource := validationSource
    invalidReason := invalidReason
    scoring := scoring }

/-- `SoloRun` from src/types/SoloRun.ts (`totalScore` is the integer sum of
the capped integer `finalScore`s). -/
structure SoloRun where
  id : String
  status : SoloRunStatus
  playerName : String
  seedArtist : CanonicalArtist
  currentArtist : Option CanonicalArtist
  usedArtists : List String
  moves : List SoloMove
  currentTurn : Nat
  currentTurnEndsAt : Option Nat := none
  totalScore : ℤ
  startedAt : Nat
  endedAt : Option Nat := none
  endReason : Option SoloEndReason := none
  deriving DecidableEq, Repr

/-- `createSoloRun` from src/types/SoloRun.ts. -/
def createSoloRun (id playerName : String) (seedArtist : CanonicalArtist)
    (now : Nat) : SoloRun :=
  { id := id
    status := SoloRunStatus.in_progress
    playerName := playerName
    seedArtist := seedArtist
    currentArtist := some seedArtist
    usedArtists := [jsOrStr seedArtist.mbid seedArtist.name]
    moves := []
    currentTurn := 1
    totalScore := 0
    startedAt := now }

/-! ## SoloManager (src/server/SoloManager.ts) -/

namespace SoloManager

/-- `TURN_DURATION_MS` (30 seconds). -/
def TURN_DURATION_MS : Nat := 30000

/-- `SoloMoveResult`. -/
structure SoloMoveResult where
  isValid : Bool
  move : SoloMove
  run : SoloRun
  message : String
  deriving DecidableEq, Repr

/-- `SoloManager.isTurnExpired`. -/
def isTurnExpired (run : SoloRun) (now : Nat) : Bool :=
  if jsTruthyNat run.currentTurnEndsAt then
    decide (now ≥ run.currentTurnEndsAt.getD 0)
  else false

/-- `SoloManager.getCanonicalId`: MBID if truthy, otherwise the raw display
name (unlike `GameService.getCanonicalId`, no lower-casing or trimming, and
again no use of `qid`). -/
def getCanonicalId (canonical : CanonicalArtist) : String :=
  jsOrStr canonical.mbid canonical.name

/-- `SoloManager.isArtistUsed`: case-insensitive membership of the canonical
id in the run's `usedArtists`. -/
def isArtistUsed (run : SoloRun) (canonical : CanonicalArtist) : Bool :=
  let canonicalId := jsOrStr canonical.mbid canonical.name
  run.usedArtists.any (fun used => strToLower used = strToLower canonicalId)

/-- `SoloManager.handleTurnTimeout` restricted to its pure effect on the
stored run: append a rejected `TIMEOUT` move and finish the run. -/
def handleTurnTimeout (run : SoloRun) (now : Nat) : SoloRun :=
  if run.status ≠ SoloRunStatus.in_progress then run
  else
    let timeoutMove := createSoloMove run.currentTurn { name := "TIMEOUT" }
      (run.currentArtist.getD run.seedArtist) false none (some .TIMEOUT) none now
    { run with
        status := SoloRunStatus.finished
        moves := run.moves ++ [timeoutMove]
        endedAt := some now
        endReason := some .TIMEOUT }

/-- `SoloManager.makeMove` as a pure state transformer on the stored run.
`locked` is the entry of `runLocks` for this run; `validation` is the
awaited outcome of `validateMove` (its rejection is what the source's
`catch` block handles); `providers` feed `scoringService.calculateScore`. -/
def makeMove (run : SoloRun) (artistName : String) (now : Nat)
    (locked : Bool) (validation : Except Unit ValidationResult)
    (providers : Providers) : SoloMoveResult :=
  -- anti double-submit lock
  if locked then
    { isValid := false
      move := createSoloMove run.currentTurn { name := artistName }
        (run.currentArtist.getD run.seedArtist) false none (some .OTHER) none now
      run := run
      message := "Un coup est deja en cours de traitement" }
  -- the run must be in progress
  else if run.status ≠ SoloRunStatus.in_progress then
    { isValid := false
      move := createSoloMove run.currentTurn { name := artistName }
        (run.currentArtist.getD run.seedArtist) false none (some .OTHER) none now
      run := run
      message := "La run est terminee" }
  -- timer check
  else if isTurnExpired run now then
    let updatedRun := handleTurnTimeout run now
    { isValid := false
      move := createSoloMove run.currentTurn { name := artistName }
        (run.currentArtist.getD run.seedArtist) false none (some .TIMEOUT) none now
      run := updatedRun
      message := "Temps ecoule, run terminee" }
  else
    let previousArtist := run.currentArtist.getD run.seedArtist
    let turnStartTime :=
      if jsTruthyNat run.currentTurnEndsAt then
        run.currentTurnEndsAt.getD 0 - TURN_DURATION_MS
      else run.startedAt
    let timeSpentSeconds := (now - turnStartTime) / 1000
    match validation with
    | .error _ =>
      -- catch block: the whole run is finished with reason OTHER
      let errorMove := createSoloMove run.currentTurn { name := artistName }
        (run.currentArtist.getD run.seedArtist) false none (some .OTHER) none now
      let finishedRun := { run with
        status := SoloRunStatus.finished
        moves := run.moves ++ [errorMove]
        endedAt := some now
        endReason := some SoloEndReason.OTHER }
      { isValid := false
        move := errorMove
        run := finishedRun
        message := "Erreur lors de la validation, run terminee" }
    | .ok validation =>
      -- the artist must exist
      if ¬ validation.existsArtist then
        let invalidMove := createSoloMove run.currentTurn { name := artistName }
          previousArtist false none (some .NOT_FOUND) none now
        let finishedRun := { run with
          status := SoloRunStatus.finished
          moves := run.moves ++ [invalidMove]
          endedAt := some now
          endReason := some SoloEndReason.INVALID_FEAT }
        { isValid := false
          move := invalidMove
          run := finishedRun
          message := "Artiste introuvable, run terminee" }
      -- repetition check
      else if isArtistUsed run validation.canonical then
        let invalidMove := createSoloMove run.currentTurn validation.canonical
          previousArtist false validation.source (some .REPEAT) none now
        let finishedRun := { run with
          status := SoloRunStatus.finished
          moves := run.moves ++ [invalidMove]
          endedAt := some now
          endReason := some SoloEndReason.REPEAT }
        { isValid := false
          move := invalidMove
          run := finishedRun
          message := "Artiste deja utilise, run terminee" }
      -- relation (collaboration) check
      else if ¬ validation.validRelation then
        let invalidMove := createSoloMove run.currentTurn validation.canonical
          previousArtist false validation.source (some .INVALID_FEAT) none now
        let finishedRun := { run with
          status := SoloRunStatus.finished
          moves := run.moves ++ [invalidMove]
          endedAt := some now
          endReason := some SoloEndReason.INVALID_FEAT }
        { isValid := false
          move := invalidMove
          run := finishedRun
          message := "Aucune collaboration trouvee, run terminee" }
      else
        -- valid move: compute the score (the degenerate-relation flags of
        -- the validation result are not consulted on this path)
        let previousMbid := jsOrStr previousArtist.mbid ""
        let currentMbid := jsOrStr validation.canonical.mbid ""
        if currentMbid = "" then
          -- no MBID: base score with only timeBonus and chainBonus
          let timeBonus : ℚ :=
            if timeSpentSeconds ≤ 5 then 1.20
            else if timeSpentSeconds ≤ 10 then 1.12
            else if timeSpentSeconds ≤ 20 then 1.06
            else if timeSpentSeconds ≤ 35 then 1.02
            else 1.00
          let palier : Nat := (run.currentTurn - 1) / 5
          let chainBonus : ℚ := 1 + min 0.20 (0.05 * (palier : ℚ))
          let rawScore : ℚ := 100 * 1.00 * 1.00 * 1.00 * timeBonus * chainBonus
          let finalScore : ℤ := min (jsRound rawScore) 280
          let scoring : ScoringDetails :=
            { basePoints := 100
              pairBonus := 1.00
              degreeBonus := 1.00
              categoryBonus := 1.00
              timeBonus := timeBonus
              chainBonus := chainBonus
              finalScore := finalScore
              pairFamilyCount := 0
              degree := 0
              category := .underground
              timeSpent := timeSpentSeconds
              chainLength := run.currentTurn }
          let validMove := createSoloMove run.currentTurn validation.canonical
            previousArtist true validation.source none (some scoring) now
          let updatedRun := { run with
            currentArtist := some validation.canonical
            usedArtists := run.usedArtists ++ [getCanonicalId validation.canonical]
            moves := run.moves ++ [validMove]
            totalScore := run.totalScore + scoring.finalScore
            currentTurn := run.currentTurn + 1
            currentTurnEndsAt := some (now + TURN_DURATION_MS) }
          { isValid := true
            move := validMove
            run := updatedRun
            message := "Coup valide" }
        else
          let scoring := ScoringService.calculateScore providers previousMbid
            currentMbid run.currentTurn timeSpentSeconds
          let validMove := createSoloMove run.currentTurn validation.canonical
            previousArtist true validation.source none (some scoring) now
          let updatedRun := { run with
            currentArtist := some validation.canonical
            usedArtists := run.usedArtists ++ [getCanonicalId validation.canonical]
            moves := run.moves ++ [validMove]
            totalScore := run.totalScore + scoring.finalScore
            currentTurn := run.currentTurn + 1
            currentTurnEndsAt := some (now + TURN_DURATION_MS) }
          { isValid := true
            move := validMove
            run := updatedRun
            message := "Coup valide" }

end SoloManager

/-! ## External-source error model and caches
(src/services/MusicBrainzService.ts, src/unnamed/part_015) -/

/-- Error classes distinguished by the `retry` helpers of
`MusicBrainzService` / `WikidataService`: transient network errors
(`ECONNRESET` / `ETIMEDOUT` / `ENOTFOUND` / timeout message) versus
everything else. -/
inductive MBError
  | network
  | other
  deriving DecidableEq, Repr

/-- An association-list cache mirroring the module-level
`Map<string, boolean>` collaboration caches; `cacheGet` is `Map.get`,
`cacheSet` is `Map.set` on a key not already present. -/
def cacheGet (cache : List (String × Bool)) (key : String) : Option Bool :=
  (cache.find? (fun e => e.1 = key)).map (·.2)

/-- Append a binding (the services only write a key after a failed
lookup, so append is `Map.set`). -/
def cacheSet (cache : List (String × Bool)) (key : String) (value : Bool) :
    List (String × Bool) :=
  cache ++ [(key, value)]

namespace MusicBrainzService

/-- `MusicBrainzService.retry`: the external world is a schedule
`attempts : Nat → Except MBError α` giving the outcome of the n-th
execution of `fn` (1-indexed). A network error before the last attempt
retries; any other error, or a network error on the last attempt, is
rethrown. -/
def retryFrom {α : Type} (attempts : Nat → Except MBError α)
    (maxRetries attempt : Nat) : Except MBError (Option α) :=
  if attempt ≤ maxRetries then
    match attempts attempt with
    | .ok v => .ok (some v)
    | .error e =>
      if h : e = .network ∧ attempt < maxRetries then
        retryFrom attempts maxRetries (attempt + 1)
      else .error e
  else .ok none
termination_by maxRetries + 1 - attempt
decreasing_by omega

/-- `retry` with the default budget of 3 attempts. -/
def retry {α : Type} (attempts : Nat → Except MBError α) : Except MBError (Option α) :=
  retryFrom attempts 3 1

/-- `MusicBrainzService.getCacheKey`: lower-cased, trimmed, alphabetically
ordered pair joined by `|`. -/
def getCacheKey (artist1 artist2 : String) : String :=
  let normalized1 := strTrim (strToLower artist1)
  let normalized2 := strTrim (strToLower artist2)
  if strLt normalized1 normalized2 then normalized1 ++ "|" ++ normalized2
  else normalized2 ++ "|" ++ normalized1

/-- `MusicBrainzService.checkCollaborationInRecordings`: the recording query
either rejects (`.error`), returns a response without `recordings`
(`.ok none`), or returns `numRecordings` hits. Its own `try`/`catch`
absorbs every rejection into `false`, so the caller can never observe the
error. -/
def checkCollaborationInRecordings
    (recordingQuery : Except MBError (Option Nat)) : Bool :=
  match recordingQuery with
  | .error _ => false
  | .ok none => false
  | .ok (some numRecordings) => decide (numRecordings > 0)

/-- `MusicBrainzService.hasCollaboration` on the module-level cache.
`artistIds` is the awaited pair of `searchArtist` results (it rejects when
a search ultimately throws, which the outer `catch` turns into an uncached
`false`); `recordingQuery` is the outcome of the collaboration query. Since
`checkCollaborationInRecordings` absorbs its own errors, the computed
boolean is always written to the cache once both artist ids resolved. -/
def hasCollaboration (cache : List (String × Bool))
    (artist1Name artist2Name : String)
    (artistIds : Except Unit (Option String × Option String))
    (recordingQuery : Except MBError (Option Nat)) :
    Bool × List (String × Bool) :=
  let cacheKey := getCacheKey artist1Name artist2Name
  match cacheGet cache cacheKey with
  | some cached => (cached, cache)
  | none =>
    match artistIds with
    | .error _ => (false, cache)  -- caught: not cached, retry possible later
    | .ok (artist1Id, artist2Id) =>
      if jsTruthyStr artist1Id ∧ jsTruthyStr artist2Id then
        let hasCollab := checkCollaborationInRecordings recordingQuery
        -- `result || hasCollab === false` always holds: the cache is written
        (hasCollab, cacheSet cache cacheKey hasCollab)
      else
        (false, cache)  -- an artist was not found: deliberately not cached

end MusicBrainzService

namespace WikidataService

/-- `WikidataService.getCacheKey` (same normalization as MusicBrainz). -/
def getCacheKey (artist1 artist2 : String) : String :=
  let normalized1 := strTrim (strToLower artist1)
  let normalized2 := strTrim (strToLower artist2)
  if strLt normalized1 normalized2 then normalized1 ++ "|" ++ normalized2
  else normalized2 ++ "|" ++ normalized1

/-- `WikidataService.haveCommonRecording` on the module-level collaboration
cache. `prevQid` / `currQid` are the awaited `findArtistQidByName` results
(that helper catches its own errors and returns `null`, so a transient
failure is indistinguishable from a confirmed miss here); `queryResult` is
the SPARQL track query: rejection (`.error`), a response without
`results.bindings` (`.ok none`), or a bindings list of the given length. -/
def haveCommonRecording (cache : List (String × Bool))
    (prevName currName : String) (prevQid currQid : Option String)
    (queryResult : Except MBError (Option Nat)) :
    Bool × List (String × Bool) :=
  let cacheKey := getCacheKey prevName currName
  match cacheGet cache cacheKey with
  | some cached => (cached, cache)
  | none =>
    if ¬ (jsTruthyStr prevQid ∧ jsTruthyStr currQid) then
      -- a QID did not resolve (possibly a transient failure): cached false
      (false, cacheSet cache cacheKey false)
    else
      match queryResult with
      | .error _ =>
        -- catch block: the error-path result is cached as false
        (false, cacheSet cache cacheKey false)
      | .ok none =>
        (false, cacheSet cache cacheKey false)
      | .ok (some numBindings) =>
        let hasCollaboration := decide (numBindings > 0)
        (hasCollaboration, cacheSet cache cacheKey hasCollaboration)

end WikidataService

/-! ## ValidationService (src/unnamed/part_015) -/

namespace ValidationService

/-- The record returned by `MusicBrainzService.resolveArtist`. -/
structure ResolvedArtist where
  mbid : String
  canonicalName : String
  aliases : List String
  deriving DecidableEq, Repr

/-- `ValidationService.validateMove`. The awaited external calls are passed
as parameters, consulted in source order:
`resolveResult` (from `resolveArtist`, the only call in the chain that can
reject — all the others catch internally), `mbCollab` (MBID-based
`haveCommonRecording`), `wikidataCollab` and `qidLookup` (Wikidata
fallback), `knownCollaborators` (`getKnownCollaborators`, for the
single-circular check). -/
def validateMove (previousArtist : Option CanonicalArtist)
    (proposedArtistName : String)
    (resolveResult : Except Unit (Option ResolvedArtist))
    (mbCollab : Bool) (wikidataCollab : Bool) (qidLookup : Option String)
    (knownCollaborators : List String) : Except Unit ValidationResult :=
  let normalizedName := strTrim proposedArtistName
  -- 1) resolve the proposed artist via MusicBrainz (mandatory)
  match resolveResult with
  | .error e => .error e
  | .ok none =>
    .ok { existsArtist := false
          validRelation := false
          canonical := { name := normalizedName }
          reason := some "NOT_FOUND" }
  | .ok (some resolved) =>
    let canonical : CanonicalArtist :=
      { name := resolved.canonicalName, mbid := some resolved.mbid }
    -- 2) first turn: no relation to check
    match previousArtist with
    | none =>
      .ok { existsArtist := true
            validRelation := true
            source := some .musicbrainz
            canonical := canonical }
    | some previousArtist =>
      -- 3) collaboration via MusicBrainz (primary), MBIDs required
      let mbHit := jsTruthyStr previousArtist.mbid ∧ jsTruthyStr canonical.mbid
        ∧ mbCollab
      -- 4) Wikidata fallback on miss, attaching the QID when available
      let wdHit := ¬ mbHit ∧ wikidataCollab
      let canonical :=
        if wdHit ∧ jsTruthyStr qidLookup then { canonical with qid := qidLookup }
        else canonical
      let validRelation := mbHit ∨ wdHit
      let source : Option ValidationSource :=
        if mbHit then some .musicbrainz
        else if wdHit then some .wikidata_fallback
        else none
      if ¬ validRelation then
        .ok { existsArtist := true
              validRelation := false
              canonical := canonical
              reason := some "NO_RELATION" }
      else
        -- 5) single circular collaboration rule
        let singleCircularCollab :=
          jsTruthyStr canonical.mbid ∧ jsTruthyStr previousArtist.mbid
          ∧ knownCollaborators = [jsOrStr previousArtist.mbid ""]
        .ok { existsArtist := true
              validRelation := true
              source := source
              canonical := canonical
              flags := some { singleCircularCollab := singleCircularCollab } }

end ValidationService

/-! # Verification of the specified properties -/

/-- Evaluate `jsRound` from the floor characterization. -/
theorem jsRound_eq_of_bounds (q : ℚ) (z : ℤ) (h1 : (z : ℚ) ≤ q + 1/2)
    (h2 : q + 1/2 < z + 1) : jsRound q = z := by
  unfold jsRound
  exact Int.floor_eq_iff.mpr ⟨by exact_mod_cast h1, by exact_mod_cast h2⟩

/-- C8: the scoring function is a pure function of the provider outputs and
inputs; on `(pairCount = 1, degree = 5, category = niche,
secondsSinceTurnStart = 3, turnNumber = 1)` the five factors are
`(1.30, 1.05, 1.08, 1.20, 1.00)`, the raw composite is
`100 × 1.30 × 1.05 × 1.08 × 1.20 × 1.00 = 176.904`, and the final score is
`min (round 176.904) 280 = 177`. -/
theorem C8_scoring_deterministic_example (providers : Providers)
    (prev curr : String)
    (hPair : providers.getPairFamilyCount prev curr = 1)
    (hDeg : providers.getDegree curr = 5)
    (hCat : providers.getCategory curr 5 = PopularityCategory.niche) :
    (ScoringService.calculateScore providers prev curr 1 3).pairBonus = 1.30 ∧
    (ScoringService.calculateScore providers prev curr 1 3).degreeBonus = 1.05 ∧
    (ScoringService.calculateScore providers prev curr 1 3).categoryBonus = 1.08 ∧
    (ScoringService.calculateScore providers prev curr 1 3).timeBonus = 1.20 ∧
    (ScoringService.calculateScore providers prev curr 1 3).chainBonus = 1.00 ∧
    (100 : ℚ) * 1.30 * 1.05 * 1.08 * 1.20 * 1.00 = 176.904 ∧
    jsRound 176.904 = 177 ∧
    (ScoringService.calculateScore providers prev curr 1 3).finalScore = 177 ∧
    (177 : ℤ) ≤ ScoringService.SCORE_CAP := by
  have hround : jsRound 176.904 = 177 := by
    apply jsRound_eq_of_bounds <;> norm_num
  refine ⟨?_, ?_, ?_, ?_, ?_, by norm_num, hround, ?_, by norm_num [ScoringService.SCORE_CAP]⟩ <;>
    simp only [ScoringService.calculateScore, hPair, hDeg, hCat,
      ScoringService.calculatePairBonus, ScoringService.calculateDegreeBonus,
      ScoringService.calculateCategoryBonus, ScoringService.calculateTimeBonus,
      ScoringService.calculateChainBonus, ScoringService.BASE_POINTS,
      ScoringService.SCORE_CAP] <;>
    norm_num
  have h125 : jsRound (22113 / 125 : ℚ) = 177 := by
    apply jsRound_eq_of_bounds <;> norm_num
  rw [h125]
  omega

/-- Witness for C8 at concrete providers. -/
theorem C8_witness :
    (ScoringService.calculateScore
      ⟨fun _ _ => 1, fun _ => 5, fun _ _ => PopularityCategory.niche⟩
      "a" "b" 1 3).finalScore = 177 :=
  (C8_scoring_deterministic_example
    ⟨fun _ _ => 1, fun _ => 5, fun _ _ => PopularityCategory.niche⟩
    "a" "b" rfl rfl rfl).2.2.2.2.2.2.2.1

/-- C9: `GameService.eliminatePlayer` changes only the matching player's
`isEliminated` flag (forced to `true`) and possibly the status (which
becomes `FINISHED` exactly when at most one active player remains after the
update, and is kept otherwise); `currentPlayerIndex`, `turns`,
`lastArtist`, `lastArtistName`, `usedArtists`, `currentTurnEndsAt`,
`attemptsUsed`, the id, and every field of every other player are
unchanged. -/
theorem C9_eliminatePlayer_frame (game : Game) (playerId : String)
    (reason : Option InvalidReason) :
    (GameService.eliminatePlayer game playerId reason).id = game.id ∧
    (GameService.eliminatePlayer game playerId reason).turns = game.turns ∧
    (GameService.eliminatePlayer game playerId reason).currentPlayerIndex
      = game.currentPlayerIndex ∧
    (GameService.eliminatePlayer game playerId reason).lastArtistName
      = game.lastArtistName ∧
    (GameService.eliminatePlayer game playerId reason).lastArtist
      = game.lastArtist ∧
    (GameService.eliminatePlayer game playerId reason).usedArtists
      = game.usedArtists ∧
    (GameService.eliminatePlayer game playerId reason).currentTurnEndsAt
      = game.currentTurnEndsAt ∧
    (GameService.eliminatePlayer game playerId reason).attemptsUsed
      = game.attemptsUsed ∧
    (GameService.eliminatePlayer game playerId reason).status =
      (if GameService.activeCount
            (GameService.eliminatePlayer game playerId reason).players ≤ 1
       then GameStatus.finished else game.status) ∧
    (GameService.eliminatePlayer game playerId reason).players =
      game.players.map (fun p =>
        { p with isEliminated := p.isEliminated || decide (p.id = playerId) }) := by
  refine ⟨rfl, rfl, rfl, rfl, rfl, rfl, rfl, rfl, rfl, ?_⟩
  show game.players.map _ = game.players.map _
  congr 1
  funext p
  by_cases h : p.id = playerId <;> simp [h]

/-- C6 counterexample: for an identity carrying a Wikidata QID but no MBID,
both dedup-key functions fall through to the display name — the secondary
id `Q123` is never used (the claim would require the key to be `Q123`). -/
theorem C6_counterexample :
    GameService.getCanonicalId { name := "Foo", mbid := none, qid := some "Q123" }
      = "foo" ∧
    SoloManager.getCanonicalId { name := "Foo", mbid := none, qid := some "Q123" }
      = "Foo" ∧
    ("foo" : String) ≠ "Q123" ∧ ("Foo" : String) ≠ "Q123" := by
  decide

/-- C6 amended: the dedup key is the MBID when present and non-empty;
otherwise it is derived from the display name alone — lower-cased and
trimmed in `GameService`, taken verbatim in `SoloManager` — and the
secondary id (`qid`) is never consulted. -/
theorem C6_dedup_key_amended (name m : String) (q : Option String) :
    GameService.getCanonicalId { name := name, mbid := none, qid := q }
      = strTrim (strToLower name) ∧
    SoloManager.getCanonicalId { name := name, mbid := none, qid := q } = name ∧
    (m ≠ "" →
      GameService.getCanonicalId { name := name, mbid := some m, qid := q } = m ∧
      SoloManager.getCanonicalId { name := name, mbid := some m, qid := q } = m) := by
  refine ⟨rfl, rfl, fun hm => ⟨?_, ?_⟩⟩ <;>
    simp [GameService.getCanonicalId, SoloManager.getCanonicalId, jsOrStr, hm]

/-- Witness for C6 amended at a non-empty MBID. -/
theorem C6_witness :
    ("M1" : String) ≠ "" ∧
    GameService.getCanonicalId { name := "Foo", mbid := some "M1", qid := none }
      = "M1" :=
  ⟨by decide, ((C6_dedup_key_amended "Foo" "M1" none).2.2 (by decide)).1⟩

/-- C5 counterexample: on an uncached pair whose SPARQL query fails with a
transient network error, `WikidataService.haveCommonRecording` writes
`false` into the collaboration cache (the claim says error-path results are
never cached); a subsequent validation of the same pair — even with the
external source healthy again and a positive answer available — returns the
cached `false` without reattempting. -/
theorem C5_counterexample :
    WikidataService.haveCommonRecording [] "Alpha" "Beta" (some "Q1") (some "Q2")
      (.error .network)
      = (false, [("alpha|beta", false)]) ∧
    WikidataService.haveCommonRecording [("alpha|beta", false)] "Alpha" "Beta"
      (some "Q1") (some "Q2") (.ok (some 1))
      = (false, [("alpha|beta", false)]) := by
  decide

/-- C5 amended: the two relation caches behave differently. The Wikidata
cache stores a value on every miss, including `false` produced by the catch
(error) path and by failed QID resolution, so a later validation of the
same pair returns the cached `false` without reattempting the external
call. Only the MusicBrainz `hasCollaboration` path leaves a thrown or
unresolved artist-id search uncached — but even there, a recording-query
error is absorbed to `false` by `checkCollaborationInRecordings` and is
cached. A cached pair is always returned without any external call. -/
theorem C5_cache_policy_amended (cache : List (String × Bool))
    (p c i1 i2 : String) (pq cq : Option String)
    (qr : Except MBError (Option Nat)) (b : Bool)
    (hi1 : i1 ≠ "") (hi2 : i2 ≠ "") :
    (cacheGet cache (WikidataService.getCacheKey p c) = none →
      WikidataService.haveCommonRecording cache p c pq cq (.error .network)
        = (false, cacheSet cache (WikidataService.getCacheKey p c) false)) ∧
    (cacheGet cache (WikidataService.getCacheKey p c) = none →
      WikidataService.haveCommonRecording cache p c none cq qr
        = (false, cacheSet cache (WikidataService.getCacheKey p c) false)) ∧
    (cacheGet cache (WikidataService.getCacheKey p c) = some b →
      WikidataService.haveCommonRecording cache p c pq cq qr = (b, cache)) ∧
    (cacheGet cache (MusicBrainzService.getCacheKey p c) = none →
      MusicBrainzService.hasCollaboration cache p c (.error ()) qr
        = (false, cache)) ∧
    (cacheGet cache (MusicBrainzService.getCacheKey p c) = none →
      MusicBrainzService.hasCollaboration cache p c (.ok (some i1, none) ) qr
        = (false, cache)) ∧
    (cacheGet cache (MusicBrainzService.getCacheKey p c) = none →
      MusicBrainzService.hasCollaboration cache p c (.ok (some i1, some i2))
        (.error .network)
        = (false, cacheSet cache (MusicBrainzService.getCacheKey p c) false)) ∧
    (cacheGet cache (MusicBrainzService.getCacheKey p c) = some b →
      MusicBrainzService.hasCollaboration cache p c (.ok (some i1, some i2)) qr
        = (b, cache)) := by
  refine ⟨?_, ?_, ?_, ?_, ?_, ?_, ?_⟩ <;> intro h <;>
    simp [WikidataService.haveCommonRecording, MusicBrainzService.hasCollaboration,
      MusicBrainzService.checkCollaborationInRecordings, jsTruthyStr, h, hi1, hi2]

/-- Witness for C5 amended on an empty cache. -/
theorem C5_witness :
    cacheGet [] (WikidataService.getCacheKey "Alpha" "Beta") = none ∧
    WikidataService.haveCommonRecording [] "Alpha" "Beta" (some "Q9") (some "Q8")
      (.error .network)
      = (false, cacheSet [] (WikidataService.getCacheKey "Alpha" "Beta") false) :=
  ⟨by decide,
    (C5_cache_policy_amended [] "Alpha" "Beta" "i1" "i2" (some "Q9") (some "Q8")
      (.ok none) false (by decide) (by decide)).1 (by decide)⟩

/-- C4 counterexample: in Run mode a validation outcome flagged
`singleCircularCollab` is nevertheless accepted by `SoloManager.makeMove`
(the flag is never consulted): `usedArtists` gains the candidate's key and
`currentArtist` becomes the candidate, contradicting the claim for the Run
entity. -/
theorem C4_counterexample :
    (SoloManager.makeMove
      { id := "r", status := .in_progress, playerName := "p",
        seedArtist := { name := "Seed", mbid := some "M0" },
        currentArtist := some { name := "Seed", mbid := some "M0" },
        usedArtists := ["M0"], moves := [], currentTurn := 1,
        currentTurnEndsAt := some 30000, totalScore := 0, startedAt := 0 }
      "Cand" 10 false
      (.ok { existsArtist := true, validRelation := true,
             source := some .musicbrainz,
             canonical := { name := "Cand", mbid := some "M1" },
             flags := some { singleCircularCollab := true } })
      ⟨fun _ _ => 0, fun _ => 0, fun _ _ => .underground⟩).isValid = true ∧
    (SoloManager.makeMove
      { id := "r", status := .in_progress, playerName := "p",
        seedArtist := { name := "Seed", mbid := some "M0" },
        currentArtist := some { name := "Seed", mbid := some "M0" },
        usedArtists := ["M0"], moves := [], currentTurn := 1,
        currentTurnEndsAt := some 30000, totalScore := 0, startedAt := 0 }
      "Cand" 10 false
      (.ok { existsArtist := true, validRelation := true,
             source := some .musicbrainz,
             canonical := { name := "Cand", mbid := some "M1" },
             flags := some { singleCircularCollab := true } })
      ⟨fun _ _ => 0, fun _ => 0, fun _ _ => .underground⟩).run.usedArtists
      = ["M0", "M1"] ∧
    (SoloManager.makeMove
      { id := "r", status := .in_progress, playerName := "p",
        seedArtist := { name := "Seed", mbid := some "M0" },
        currentArtist := some { name := "Seed", mbid := some "M0" },
        usedArtists := ["M0"], moves := [], currentTurn := 1,
        currentTurnEndsAt := some 30000, totalScore := 0, startedAt := 0 }
      "Cand" 10 false
      (.ok { existsArtist := true, validRelation := true,
             source := some .musicbrainz,
             canonical := { name := "Cand", mbid := some "M1" },
             flags := some { singleCircularCollab := true } })
      ⟨fun _ _ => 0, fun _ => 0, fun _ _ => .underground⟩).run.currentArtist
      = some { name := "Cand", mbid := some "M1" } := by
  refine ⟨?_, ?_, ?_⟩ <;>
    simp [SoloManager.makeMove, SoloManager.isTurnExpired, SoloManager.isArtistUsed,
      SoloManager.getCanonicalId, jsTruthyNat, jsOrStr, jsTruthyStr, strToLower]
/-- C4 amended: in Game mode a `SINGLE_CIRCULAR` validation outcome never
mutates `lastArtist`/`lastArtistName`/`usedArtists` (neither on retry nor
on budget-exhaustion elimination); in Run mode the degenerate flag is not
consulted at all — any resolving, non-repeated, relation-holding candidate
is accepted regardless of the flag, updating `currentArtist` and appending
the candidate's key to `usedArtists`. -/
theorem C4_single_circular_amended (game : Game) (playerId artistName : String)
    (now : Nat) (v : ValidationResult) (p : Player)
    (hst : game.status = .in_progress)
    (hp : game.players.get? game.currentPlayerIndex = some p)
    (hid : p.id = playerId) (hel : p.isEliminated = false)
    (hexp : GameService.isTurnExpired game now = false)
    (hbud : game.attemptsUsed.getD 0 + 1 ≤ 2)
    (hex : v.existsArtist = true)
    (hused : GameService.isArtistUsed game v.canonical = false)
    (hrel : v.validRelation = true)
    (hflag : (v.flags.getD {}).singleCircularCollab = true) :
    (∃ r, GameService.proposeArtist game playerId artistName now (.ok v) = .ok r ∧
      r.isValid = false ∧
      r.turn.invalidReason = some .SINGLE_CIRCULAR ∧
      r.game.lastArtist = game.lastArtist ∧
      r.game.lastArtistName = game.lastArtistName ∧
      r.game.usedArtists = game.usedArtists) ∧
    (∀ (run : SoloRun) (name2 : String) (now2 : Nat) (v2 : ValidationResult)
        (providers : Providers),
      run.status = .in_progress →
      SoloManager.isTurnExpired run now2 = false →
      v2.existsArtist = true →
      SoloManager.isArtistUsed run v2.canonical = false →
      v2.validRelation = true →
      (SoloManager.makeMove run name2 now2 false (.ok v2) providers).isValid = true ∧
      (SoloManager.makeMove run name2 now2 false (.ok v2) providers).run.usedArtists
        = run.usedArtists ++ [SoloManager.getCanonicalId v2.canonical] ∧
      (SoloManager.makeMove run name2 now2 false (.ok v2) providers).run.currentArtist
        = some v2.canonical) := by
  constructor
  · unfold GameService.proposeArtist
    simp only [hst, hp, hid, hel, hexp, hex, hused, hrel, hflag,
      GameService.MAX_ATTEMPTS_PER_TURN, ne_eq, not_true_eq_false, if_false,
      Bool.false_eq_true, ite_false, reduceCtorEq]
    by_cases hb : game.attemptsUsed.getD 0 + 1 > 2
    · omega
    · simp only [hb, if_false, ite_false]
      by_cases hlast : game.attemptsUsed.getD 0 + 1 ≥ 2 <;>
        simp [hlast, createTurn, GameService.eliminatePlayer]
  · intro run name2 now2 v2 providers hst2 hexp2 hex2 hused2 hrel2
    unfold SoloManager.makeMove
    simp only [hst2, hexp2, hex2, hused2, hrel2, ne_eq, not_true_eq_false,
      Bool.false_eq_true, ite_false, if_false, reduceCtorEq]
    by_cases hmb : jsOrStr v2.canonical.mbid "" = "" <;>
      simp [hmb, createSoloMove]

/-- Witness for C4 amended: a two-player game, first attempt, degenerate
relation; the proposal is rejected with `SINGLE_CIRCULAR` and the chain
state is untouched. -/
theorem C4_witness :
    ∃ r, GameService.proposeArtist
      { id := "g", status := .in_progress,
        players := [{ id := "a", name := "A", isEliminated := false },
                    { id := "b", name := "B", isEliminated := false }],
        turns := [], currentPlayerIndex := 0, lastArtistName := some "Seed",
        lastArtist := some { name := "Seed", mbid := some "M0" },
        usedArtists := ["M0"], currentTurnEndsAt := some 30000,
        attemptsUsed := some 0 }
      "a" "Cand" 10
      (.ok { existsArtist := true, validRelation := true,
             canonical := { name := "Cand", mbid := some "M1" },
             flags := some { singleCircularCollab := true } }) = .ok r ∧
      r.isValid = false ∧ r.turn.invalidReason = some .SINGLE_CIRCULAR ∧
      r.game.lastArtist = some { name := "Seed", mbid := some "M0" } ∧
      r.game.lastArtistName = some "Seed" ∧ r.game.usedArtists = ["M0"] := by
  have h := C4_single_circular_amended
    { id := "g", status := .in_progress,
      players := [{ id := "a", name := "A", isEliminated := false },
                  { id := "b", name := "B", isEliminated := false }],
      turns := [], currentPlayerIndex := 0, lastArtistName := some "Seed",
      lastArtist := some { name := "Seed", mbid := some "M0" },
      usedArtists := ["M0"], currentTurnEndsAt := some 30000,
      attemptsUsed := some 0 }
    "a" "Cand" 10
    { existsArtist := true, validRelation := true,
      canonical := { name := "Cand", mbid := some "M1" },
      flags := some { singleCircularCollab := true } }
    { id := "a", name := "A", isEliminated := false }
    rfl rfl rfl rfl (by decide) (by decide) rfl (by decide) rfl rfl
  exact h.1

/-- `jsRound` of a non-negative rational is non-negative. -/
theorem jsRound_nonneg (q : ℚ) (h : 0 ≤ q) : 0 ≤ jsRound q := by
  unfold jsRound
  exact Int.le_floor.mpr (by push_cast; linarith)

/-- The capped score `min (jsRound q) 280` lies in `[0, 280]` whenever the
raw score is non-negative. -/
theorem cappedScore_bounds (q : ℚ) (h : 0 ≤ q) :
    0 ≤ min (jsRound q) 280 ∧ min (jsRound q) 280 ≤ 280 :=
  ⟨le_min (jsRound_nonneg q h) (by norm_num), min_le_right _ _⟩

/-- All five bonus factors of the scoring engine are non-negative. -/
theorem scoring_factors_nonneg (n d t c : Nat) (cat : PopularityCategory) :
    0 ≤ ScoringService.calculatePairBonus n ∧
    0 ≤ ScoringService.calculateDegreeBonus d ∧
    0 ≤ ScoringService.calculateCategoryBonus cat ∧
    0 ≤ ScoringService.calculateTimeBonus t ∧
    0 ≤ ScoringService.calculateChainBonus c := by
  refine ⟨?_, ?_, ?_, ?_, ?_⟩
  · unfold ScoringService.calculatePairBonus; split_ifs <;> norm_num
  · unfold ScoringService.calculateDegreeBonus; split_ifs <;> norm_num
  · unfold ScoringService.calculateCategoryBonus; cases cat <;> norm_num
  · unfold ScoringService.calculateTimeBonus; split_ifs <;> norm_num
  · unfold ScoringService.calculateChainBonus
    have : (0 : ℚ) ≤ min 0.20 (0.05 * (((c - 1) / 5 : ℕ) : ℚ)) :=
      le_min (by norm_num) (by positivity)
    linarith

/-- The final score of `calculateScore` lies in `[0, 280]`. -/
theorem calculateScore_finalScore_bounds (providers : Providers)
    (a b : String) (t s : Nat) :
    0 ≤ (ScoringService.calculateScore providers a b t s).finalScore ∧
    (ScoringService.calculateScore providers a b t s).finalScore ≤ 280 := by
  have h := scoring_factors_nonneg (providers.getPairFamilyCount a b)
    (providers.getDegree b)
    s t (providers.getCategory b (providers.getDegree b))
  have hraw : (0 : ℚ) ≤ ScoringService.BASE_POINTS *
      ScoringService.calculatePairBonus (providers.getPairFamilyCount a b) *
      ScoringService.calculateDegreeBonus (providers.getDegree b) *
      ScoringService.calculateCategoryBonus
        (providers.getCategory b (providers.getDegree b)) *
      ScoringService.calculateTimeBonus s *
      ScoringService.calculateChainBonus t := by
    have hb : (0 : ℚ) ≤ ScoringService.BASE_POINTS := by
      norm_num [ScoringService.BASE_POINTS]
    obtain ⟨h1, h2, h3, h4, h5⟩ := h
    positivity
  unfold ScoringService.calculateScore
  simp only [ScoringService.SCORE_CAP]
  exact cappedScore_bounds _ hraw

/-- An integer does not decrease when a capped non-negative score is added. -/
theorem le_add_cappedScore (x : ℤ) (q : ℚ) (h : 0 ≤ q) :
    x ≤ x + min (jsRound q) 280 := by
  have := (cappedScore_bounds q h).1
  omega

/-- C10: `totalScore` is non-decreasing across `makeMove`: it is unchanged
on every rejected, timed-out, locked, or errored move, and an accepted move
adds exactly that move's `finalScore`, which lies in `[0, 280]`. -/
theorem C10_totalScore_monotone (run : SoloRun) (artistName : String)
    (now : Nat) (locked : Bool) (validation : Except Unit ValidationResult)
    (providers : Providers) :
    run.totalScore
      ≤ (SoloManager.makeMove run artistName now locked validation
          providers).run.totalScore ∧
    ((SoloManager.makeMove run artistName now locked validation
        providers).isValid = false →
      (SoloManager.makeMove run artistName now locked validation
        providers).run.totalScore = run.totalScore) ∧
    ((SoloManager.makeMove run artistName now locked validation
        providers).isValid = true →
      ∃ sd, (SoloManager.makeMove run artistName now locked validation
          providers).move.scoring = some sd ∧
        (SoloManager.makeMove run artistName now locked validation
          providers).run.totalScore = run.totalScore + sd.finalScore ∧
        0 ≤ sd.finalScore ∧ sd.finalScore ≤ 280) := by
  by_cases hlock : locked
  · simp [SoloManager.makeMove, hlock]
  by_cases hst : run.status = SoloRunStatus.in_progress
  case neg => simp [SoloManager.makeMove, hlock, hst]
  by_cases hexp : SoloManager.isTurnExpired run now = true
  · unfold SoloManager.makeMove SoloManager.handleTurnTimeout
    simp [hlock, hst, hexp]
  cases validation with
  | error e => simp [SoloManager.makeMove, hlock, hst, hexp]
  | ok v =>
    by_cases hex : v.existsArtist = true
    case neg => simp [SoloManager.makeMove, hlock, hst, hexp, hex]
    by_cases hused : SoloManager.isArtistUsed run v.canonical = true
    · simp [SoloManager.makeMove, hlock, hst, hexp, hex, hused]
    by_cases hrel : v.validRelation = true
    case neg => simp [SoloManager.makeMove, hlock, hst, hexp, hex, hused, hrel]
    by_cases hmb : jsOrStr v.canonical.mbid "" = ""
    · simp [SoloManager.makeMove, createSoloMove, hlock, hst, hexp, hex, hused,
        hrel, hmb]
      have h1 : (0 : ℚ) ≤ min 0.20 (0.05 * (((run.currentTurn - 1) / 5 : ℕ) : ℚ)) :=
        le_min (by norm_num) (by positivity)
      apply jsRound_nonneg
      split_ifs <;> nlinarith
    · simp [SoloManager.makeMove, createSoloMove, hlock, hst, hexp, hex, hused,
        hrel, hmb]
      exact ⟨(calculateScore_finalScore_bounds _ _ _ _ _).1,
        (calculateScore_finalScore_bounds _ _ _ _ _).2⟩

/-- Witness for C10 at a concrete accepted move. -/
theorem C10_witness :
    (0 : ℤ) ≤ (SoloManager.makeMove
      { id := "r", status := .in_progress, playerName := "p",
        seedArtist := { name := "Seed", mbid := some "M0" },
        currentArtist := some { name := "Seed", mbid := some "M0" },
        usedArtists := ["M0"], moves := [], currentTurn := 1,
        currentTurnEndsAt := some 30000, totalScore := 0, startedAt := 0 }
      "Cand" 10 false
      (.ok { existsArtist := true, validRelation := true,
             canonical := { name := "Cand", mbid := some "M1" } })
      ⟨fun _ _ => 1, fun _ => 5, fun _ _ => PopularityCategory.niche⟩).run.totalScore := by
  have h := C10_totalScore_monotone
    { id := "r", status := .in_progress, playerName := "p",
      seedArtist := { name := "Seed", mbid := some "M0" },
      currentArtist := some { name := "Seed", mbid := some "M0" },
      usedArtists := ["M0"], moves := [], currentTurn := 1,
      currentTurnEndsAt := some 30000, totalScore := 0, startedAt := 0 }
    "Cand" 10 false
    (.ok { existsArtist := true, validRelation := true,
           canonical := { name := "Cand", mbid := some "M1" } })
    ⟨fun _ _ => 1, fun _ => 5, fun _ _ => PopularityCategory.niche⟩
  exact h.1

/-- C2 amended: when the deadline has passed, a submit by the correct,
non-eliminated holder of an `IN_PROGRESS` game hard-eliminates the holder
with reason `TIMEOUT`, does not change `attemptsUsed`, never consults the
validation chain (the result is identical for any validation outcome,
including a rejection), and appends a rejected `TIMEOUT` record — but it
does NOT advance the turn: `currentPlayerIndex` and `currentTurnEndsAt` are
left unchanged (only the timer-driven path advances). The status becomes
`FINISHED` exactly when at most one active player remains. -/
theorem C2_timeout_submit_amended (game : Game) (playerId artistName : String)
    (now : Nat) (v1 v2 : Except Unit ValidationResult) (p : Player)
    (hst : game.status = .in_progress)
    (hp : game.players.get? game.currentPlayerIndex = some p)
    (hid : p.id = playerId) (hel : p.isEliminated = false)
    (hexp : GameService.isTurnExpired game now = true) :
    GameService.proposeArtist game playerId artistName now v1
      = GameService.proposeArtist game playerId artistName now v2 ∧
    ∃ r, GameService.proposeArtist game playerId artistName now v1 = .ok r ∧
      r.isValid = false ∧
      r.turn.invalidReason = some .TIMEOUT ∧
      r.turn.attemptNumber = some (game.attemptsUsed.getD 0) ∧
      r.game.attemptsUsed = game.attemptsUsed ∧
      r.game.turns = game.turns ++ [r.turn] ∧
      r.game.players.get? game.currentPlayerIndex
        = some { p with isEliminated := true } ∧
      (r.game.status = .finished ↔ GameService.activeCount r.game.players ≤ 1) ∧
      r.game.currentPlayerIndex = game.currentPlayerIndex ∧
      r.game.currentTurnEndsAt = game.currentTurnEndsAt := by
  constructor
  · unfold GameService.proposeArtist
    simp [hst, hp, hid, hel, hexp]
  · unfold GameService.proposeArtist
    simp only [hst, hp, hid, hel, hexp, ne_eq, not_true_eq_false,
      Bool.false_eq_true, ite_false, if_false, reduceCtorEq, ite_true, if_true]
    refine ⟨_, rfl, rfl, rfl, rfl, rfl, ?_, ?_, ?_, rfl, rfl⟩
    · simp [GameService.eliminatePlayer, createTurn]
    · simp only [GameService.eliminatePlayer, List.getElem?_map,
        List.get?_eq_getElem?] at hp ⊢
      simp [hp, hid]
    · simp only [GameService.eliminatePlayer]
      constructor
      · intro h
        by_cases hc : GameService.activeCount
            (game.players.map (fun player =>
              if player.id = playerId then { player with isEliminated := true }
              else player)) ≤ 1
        · exact hc
        · simp only [hc, if_false, ite_false] at h
          rw [hst] at h
          exact absurd h (by simp)
      · intro h
        simp [h]

/-- C2 counterexample: in a three-player game whose deadline has passed, the
holder's submit produces the `TIMEOUT` elimination but the turn is NOT
advanced: the game stays `IN_PROGRESS` with `currentPlayerIndex` still `0`,
the stale deadline still in place and no fresh turn opened — contradicting
the claim that the submit path advances the turn to the next holder. -/
theorem C2_counterexample :
    (GameService.proposeArtist
      { id := "g2", status := .in_progress,
        players := [{ id := "a", name := "A", isEliminated := false },
                    { id := "b", name := "B", isEliminated := false },
                    { id := "c", name := "C", isEliminated := false }],
        turns := [], currentPlayerIndex := 0, lastArtistName := none,
        usedArtists := [], currentTurnEndsAt := some 100, attemptsUsed := some 0 }
      "a" "X" 100
      (.ok { existsArtist := false, validRelation := false,
             canonical := { name := "X" } })).map
      (fun r => (r.turn.invalidReason, r.game.status,
        r.game.currentPlayerIndex, r.game.currentTurnEndsAt,
        r.game.attemptsUsed))
      = .ok (some .TIMEOUT, .in_progress, 0, some 100, some 0) := by
  decide

/-- Witness for C2 amended: the expired submit gives the same result for a
successful validation outcome and for a rejected validation promise. -/
theorem C2_witness :
    GameService.proposeArtist
      { id := "g2", status := .in_progress,
        players := [{ id := "a", name := "A", isEliminated := false },
                    { id := "b", name := "B", isEliminated := false }],
        turns := [], currentPlayerIndex := 0, lastArtistName := none,
        usedArtists := [], currentTurnEndsAt := some 100, attemptsUsed := some 0 }
      "a" "X" 250
      (.ok { existsArtist := true, validRelation := true,
             canonical := { name := "X" } })
      = GameService.proposeArtist
      { id := "g2", status := .in_progress,
        players := [{ id := "a", name := "A", isEliminated := false },
                    { id := "b", name := "B", isEliminated := false }],
        turns := [], currentPlayerIndex := 0, lastArtistName := none,
        usedArtists := [], currentTurnEndsAt := some 100, attemptsUsed := some 0 }
      "a" "X" 250 (.error ()) := by
  have h := C2_timeout_submit_amended
    { id := "g2", status := .in_progress,
      players := [{ id := "a", name := "A", isEliminated := false },
                  { id := "b", name := "B", isEliminated := false }],
      turns := [], currentPlayerIndex := 0, lastArtistName := none,
      usedArtists := [], currentTurnEndsAt := some 100, attemptsUsed := some 0 }
    "a" "X" 250
    (.ok { existsArtist := true, validRelation := true,
           canonical := { name := "X" } })
    (.error ())
    { id := "a", name := "A", isEliminated := false }
    rfl rfl rfl rfl (by decide)
  exact h.1

/-- C3: for a submission that passes the turn guards with any at-rest
attempt count (`attemptsUsed + 1 ≤ 2`, i.e. both on the first and on the
last attempt — the budget is bypassed), a proposal that resolves and whose
dedup key is already in `usedArtists` is a hard elimination with reason
`REPEAT`. No hypothesis constrains `validRelation` or the flags: the
repeat outcome takes priority over the relation check, so the reason is
`REPEAT` even when the validation chain found no relation. -/
theorem C3_repeat_hard_elimination (game : Game) (playerId artistName : String)
    (now : Nat) (v : ValidationResult) (p : Player)
    (hst : game.status = .in_progress)
    (hp : game.players.get? game.currentPlayerIndex = some p)
    (hid : p.id = playerId) (hel : p.isEliminated = false)
    (hexp : GameService.isTurnExpired game now = false)
    (hbud : game.attemptsUsed.getD 0 + 1 ≤ GameService.MAX_ATTEMPTS_PER_TURN)
    (hex : v.existsArtist = true)
    (hused : GameService.isArtistUsed game v.canonical = true) :
    ∃ r, GameService.proposeArtist game playerId artistName now (.ok v) = .ok r ∧
      r.isValid = false ∧
      r.turn.invalidReason = some .REPEAT ∧
      r.turn.attemptNumber = some (game.attemptsUsed.getD 0 + 1) ∧
      r.game.players.get? game.currentPlayerIndex
        = some { p with isEliminated := true } ∧
      (r.game.status = .finished ↔ GameService.activeCount r.game.players ≤ 1) ∧
      r.game.lastArtist = game.lastArtist ∧
      r.game.usedArtists = game.usedArtists := by
  have hb : ¬ (game.attemptsUsed.getD 0 + 1 > GameService.MAX_ATTEMPTS_PER_TURN) := by
    omega
  unfold GameService.proposeArtist
  simp only [hst, hp, hid, hel, hexp, hb, hex, hused, and_true, ne_eq,
    not_true_eq_false, Bool.false_eq_true, ite_false, if_false, reduceCtorEq,
    ite_true, if_true, true_and]
  refine ⟨_, rfl, rfl, rfl, rfl, ?_, ?_, rfl, rfl⟩
  · simp only [GameService.eliminatePlayer, List.getElem?_map,
      List.get?_eq_getElem?] at hp ⊢
    simp [hp, hid]
  · simp only [GameService.eliminatePlayer]
    constructor
    · intro h
      by_cases hc : GameService.activeCount
          (game.players.map (fun player =>
            if player.id = playerId then { player with isEliminated := true }
            else player)) ≤ 1
      · exact hc
      · simp only [hc, if_false, ite_false] at h
        rw [hst] at h
        exact absurd h (by simp)
    · intro h
      simp [h]

/-- Witness for C3: a repeated artist proposed on the first attempt, with
`validRelation = false` — the outcome is still `REPEAT`, not `NO_RELATION`,
and the holder is eliminated. -/
theorem C3_witness :
    ∃ r, GameService.proposeArtist
      { id := "g3", status := .in_progress,
        players := [{ id := "a", name := "A", isEliminated := false },
                    { id := "b", name := "B", isEliminated := false }],
        turns := [], currentPlayerIndex := 0, lastArtistName := some "Seed",
        lastArtist := some { name := "Seed", mbid := some "M0" },
        usedArtists := ["M0"], currentTurnEndsAt := some 30000,
        attemptsUsed := some 0 }
      "a" "Seed" 10
      (.ok { existsArtist := true, validRelation := false,
             canonical := { name := "Seed", mbid := some "M0" } }) = .ok r ∧
      r.isValid = false ∧
      r.turn.invalidReason = some .REPEAT ∧
      r.turn.attemptNumber = some 1 ∧
      r.game.players.get? 0
        = some { id := "a", name := "A", isEliminated := true } ∧
      (r.game.status = .finished ↔
        GameService.activeCount r.game.players ≤ 1) ∧
      r.game.lastArtist = some { name := "Seed", mbid := some "M0" } ∧
      r.game.usedArtists = ["M0"] := by
  have h := C3_repeat_hard_elimination
    { id := "g3", status := .in_progress,
      players := [{ id := "a", name := "A", isEliminated := false },
                  { id := "b", name := "B", isEliminated := false }],
      turns := [], currentPlayerIndex := 0, lastArtistName := some "Seed",
      lastArtist := some { name := "Seed", mbid := some "M0" },
      usedArtists := ["M0"], currentTurnEndsAt := some 30000,
      attemptsUsed := some 0 }
    "a" "Seed" 10
    { existsArtist := true, validRelation := false,
      canonical := { name := "Seed", mbid := some "M0" } }
    { id := "a", name := "A", isEliminated := false }
    rfl rfl rfl rfl (by decide) (by decide) rfl (by decide)
  exact h

/-- A persistent transient failure exhausts the retry budget and is
rethrown (the loop rethrows a network error on the last attempt). -/
theorem retry_persistent_network_error {α : Type}
    (attempts : Nat → Except MBError α)
    (h : ∀ i, attempts i = .error .network) :
    MusicBrainzService.retry attempts = .error .network := by
  unfold MusicBrainzService.retry
  rw [MusicBrainzService.retryFrom, h]
  norm_num
  rw [MusicBrainzService.retryFrom, h]
  norm_num
  rw [MusicBrainzService.retryFrom, h]
  norm_num

/-- C7 counterexample: external-source failures are not absorbed. A
persistent network failure exhausts the 3-attempt retry and is rethrown by
`MusicBrainzService.retry`; a rejected resolution propagates out of
`validateMove`; the Game submit operation `proposeArtist` itself rejects
(an exception escapes the engine instead of a NOT_FOUND/NO_RELATION
outcome); and in Run mode the same failure terminates the whole entity:
the run is `FINISHED` with `endReason = OTHER`. -/
theorem C7_counterexample :
    MusicBrainzService.retry (fun _ => (.error .network : Except MBError Nat))
      = .error .network ∧
    ValidationService.validateMove none "X" (.error ()) false false none []
      = .error () ∧
    GameService.proposeArtist
      { id := "g7", status := .in_progress,
        players := [{ id := "a", name := "A", isEliminated := false },
                    { id := "b", name := "B", isEliminated := false }],
        turns := [], currentPlayerIndex := 0, lastArtistName := none,
        usedArtists := [], currentTurnEndsAt := some 30000,
        attemptsUsed := some 0 }
      "a" "X" 10 (.error ()) = .error () ∧
    (SoloManager.makeMove
      { id := "r7", status := .in_progress, playerName := "p",
        seedArtist := { name := "Seed" },
        currentArtist := some { name := "Seed" },
        usedArtists := ["Seed"], moves := [], currentTurn := 1,
        currentTurnEndsAt := some 30000, totalScore := 0, startedAt := 0 }
      "X" 10 false (.error ())
      ⟨fun _ _ => 0, fun _ => 0, fun _ _ => .underground⟩).run.status
      = SoloRunStatus.finished ∧
    (SoloManager.makeMove
      { id := "r7", status := .in_progress, playerName := "p",
        seedArtist := { name := "Seed" },
        currentArtist := some { name := "Seed" },
        usedArtists := ["Seed"], moves := [], currentTurn := 1,
        currentTurnEndsAt := some 30000, totalScore := 0, startedAt := 0 }
      "X" 10 false (.error ())
      ⟨fun _ _ => 0, fun _ => 0, fun _ _ => .underground⟩).run.endReason
      = some SoloEndReason.OTHER := by
  refine ⟨retry_persistent_network_error _ (fun _ => rfl), rfl, ?_, ?_, ?_⟩ <;>
    decide

/-- C7 amended: external-source failures are not absorbed into
`NOT_FOUND`/`NO_RELATION`. A transient failure that persists through the
3-attempt retry budget (and any non-transient error) is rethrown by the
MusicBrainz layer; `validateMove` has no handler, so the rejection
propagates out of the Game submit operation to its caller; the Solo
`makeMove` catches it but then terminates the whole run with
`endReason = OTHER` (leaving `totalScore` unchanged). -/
theorem C7_external_failure_amended {α : Type}
    (attempts : Nat → Except MBError α)
    (hatt : ∀ i, attempts i = .error .network)
    (game : Game) (playerId artistName : String) (now : Nat) (p : Player)
    (hst : game.status = .in_progress)
    (hp : game.players.get? game.currentPlayerIndex = some p)
    (hid : p.id = playerId) (hel : p.isEliminated = false)
    (hexp : GameService.isTurnExpired game now = false)
    (hbud : game.attemptsUsed.getD 0 + 1 ≤ GameService.MAX_ATTEMPTS_PER_TURN)
    (run : SoloRun) (name2 : String) (now2 : Nat) (providers : Providers)
    (hrst : run.status = .in_progress)
    (hrexp : SoloManager.isTurnExpired run now2 = false) :
    MusicBrainzService.retry attempts = .error .network ∧
    (∀ (prev : Option CanonicalArtist) (name : String) (mb wd : Bool)
        (q : Option String) (kc : List String),
      ValidationService.validateMove prev name (.error ()) mb wd q kc
        = .error ()) ∧
    GameService.proposeArtist game playerId artistName now (.error ())
      = .error () ∧
    (SoloManager.makeMove run name2 now2 false (.error ()) providers).run.status
      = SoloRunStatus.finished ∧
    (SoloManager.makeMove run name2 now2 false (.error ()) providers).run.endReason
      = some SoloEndReason.OTHER ∧
    (SoloManager.makeMove run name2 now2 false (.error ()) providers).run.totalScore
      = run.totalScore := by
  have hb : ¬ (game.attemptsUsed.getD 0 + 1 > GameService.MAX_ATTEMPTS_PER_TURN) := by
    omega
  refine ⟨retry_persistent_network_error attempts hatt, fun _ _ _ _ _ _ => rfl,
    ?_, ?_, ?_, ?_⟩
  · unfold GameService.proposeArtist
    rw [List.get?_eq_getElem?] at hp
    simp [hst, hp, hid, hel, hexp, hb]
  all_goals
    unfold SoloManager.makeMove
    simp [hrst, hrexp]

/-- Witness for C7 amended: the rejection of the validation promise
propagates out of a concrete in-progress game's submit. -/
theorem C7_witness :
    GameService.proposeArtist
      { id := "g7w", status := .in_progress,
        players := [{ id := "a", name := "A", isEliminated := false },
                    { id := "b", name := "B", isEliminated := false }],
        turns := [], currentPlayerIndex := 0, lastArtistName := none,
        usedArtists := [], currentTurnEndsAt := some 30000,
        attemptsUsed := some 0 }
      "a" "X" 10 (.error ()) = .error () := by
  have h := C7_external_failure_amended
    (fun _ => (.error .network : Except MBError Nat)) (fun _ => rfl)
    { id := "g7w", status := .in_progress,
      players := [{ id := "a", name := "A", isEliminated := false },
                  { id := "b", name := "B", isEliminated := false }],
      turns := [], currentPlayerIndex := 0, lastArtistName := none,
      usedArtists := [], currentTurnEndsAt := some 30000,
      attemptsUsed := some 0 }
    "a" "X" 10 { id := "a", name := "A", isEliminated := false }
    rfl rfl rfl rfl (by decide) (by decide)
    { id := "r7w", status := .in_progress, playerName := "p",
      seedArtist := { name := "Seed" },
      currentArtist := some { name := "Seed" },
      usedArtists := ["Seed"], moves := [], currentTurn := 1,
      currentTurnEndsAt := some 30000, totalScore := 0, startedAt := 0 }
    "X" 10 ⟨fun _ _ => 0, fun _ => 0, fun _ _ => .underground⟩
    rfl (by decide)
  exact h.2.2.1

/-- Characterization of the `moveToNextPlayer` scan loop: starting at index
`start < length` with `attempts` hops already consumed, if the `j`-th
position of the scan is the first non-eliminated one and `j` fits in the
remaining hop budget, the loop stops exactly there. -/
theorem moveLoop_spec (players : List Player) :
    ∀ (j start attempts : Nat),
    start < players.length →
    j < players.length - attempts →
    (GameService.playerAt players ((start + j) % players.length)).isEliminated
      = false →
    (∀ k, k < j →
      (GameService.playerAt players ((start + k) % players.length)).isEliminated
        = true) →
    GameService.moveLoop players start attempts
      = (start + j) % players.length := by
  intro j
  induction j with
  | zero =>
    intro start attempts hstart _ hact _
    rw [GameService.moveLoop]
    rw [Nat.add_zero, Nat.mod_eq_of_lt hstart] at hact
    rw [if_neg (by simp [hact])]
    rw [Nat.add_zero, Nat.mod_eq_of_lt hstart]
  | succ j ih =>
    intro start attempts hstart hj hact hmin
    have hlen : 0 < players.length := by omega
    have hstart0 : (GameService.playerAt players start).isEliminated = true := by
      have := hmin 0 (by omega)
      rwa [Nat.add_zero, Nat.mod_eq_of_lt hstart] at this
    have hattempts : attempts < players.length := by omega
    rw [GameService.moveLoop]
    rw [if_pos ⟨hstart0, hattempts⟩]
    have hmodeq : ∀ m : Nat,
        ((start + 1) % players.length + m) % players.length
          = (start + 1 + m) % players.length := by
      intro m
      rw [Nat.mod_add_mod]
    rw [ih ((start + 1) % players.length) (attempts + 1)
      (Nat.mod_lt _ hlen) (by omega)
      (by rw [hmodeq]; rw [show start + 1 + j = start + (j + 1) by omega]; exact hact)
      (fun k hk => by
        rw [hmodeq]
        rw [show start + 1 + k = start + (k + 1) by omega]
        exact hmin (k + 1) (by omega))]
    rw [hmodeq]
    congr 1
    omega

/-- `playerAt` agrees with list indexing in range. -/
theorem playerAt_eq_getElem (players : List Player) (i : Nat)
    (h : i < players.length) :
    GameService.playerAt players i = players[i] := by
  unfold GameService.playerAt
  rw [List.getD_eq_getElem?_getD, List.getElem?_eq_getElem h]
  rfl

/-- A positive active count yields a non-eliminated member. -/
theorem exists_active_of_activeCount_pos (players : List Player)
    (h : 1 ≤ GameService.activeCount players) :
    ∃ q ∈ players, q.isEliminated = false := by
  unfold GameService.activeCount at h
  obtain ⟨q, hq⟩ :=
    List.exists_mem_of_length_pos (Nat.lt_of_lt_of_le Nat.zero_lt_one h)
  exact ⟨q, (List.mem_filter.mp hq).1, by
    simpa using (List.mem_filter.mp hq).2⟩

/-- If at least one player is non-eliminated, the round-robin scan from any
in-range start index meets a first non-eliminated player within `length`
hops. -/
theorem exists_first_active (players : List Player) (start : Nat)
    (hstart : start < players.length)
    (hact : ∃ q ∈ players, q.isEliminated = false) :
    ∃ j, j < players.length ∧
      (GameService.playerAt players
        ((start + j) % players.length)).isEliminated = false ∧
      ∀ k, k < j →
        (GameService.playerAt players
          ((start + k) % players.length)).isEliminated = true := by
  have hlen : 0 < players.length := by omega
  obtain ⟨q, hq, hqact⟩ := hact
  obtain ⟨i0, hi0len, hi0⟩ := List.mem_iff_getElem.mp hq
  -- the hop count that reaches i0 from start
  have hwit : (start + (i0 + players.length - start) % players.length)
      % players.length = i0 := by
    rw [Nat.add_comm start, Nat.mod_add_mod, Nat.add_comm]
    rw [show start + (i0 + players.length - start) = i0 + players.length by omega]
    rw [Nat.add_mod_right, Nat.mod_eq_of_lt hi0len]
  have hexQ : ∃ j, j < players.length ∧
      (GameService.playerAt players
        ((start + j) % players.length)).isEliminated = false := by
    refine ⟨(i0 + players.length - start) % players.length,
      Nat.mod_lt _ hlen, ?_⟩
    rw [hwit, playerAt_eq_getElem players i0 hi0len, hi0, hqact]
  classical
  refine ⟨Nat.find hexQ, (Nat.find_spec hexQ).1, (Nat.find_spec hexQ).2, ?_⟩
  intro k hk
  have hn := Nat.find_min hexQ hk
  have hklen : k < players.length := by
    have := (Nat.find_spec hexQ).1
    omega
  rw [not_and] at hn
  exact Bool.not_eq_false _ |>.mp (hn hklen)

/-- `moveToNextPlayer` with at least two active players: the status and all
turn fields are untouched, and the holder index advances to the first
non-eliminated player after the current one in round-robin order. -/
theorem moveToNextPlayer_advances (game : Game)
    (h2 : 2 ≤ GameService.activeCount game.players) :
    ∃ j, 1 ≤ j ∧ j ≤ game.players.length ∧
      (GameService.moveToNextPlayer game).currentPlayerIndex
        = (game.currentPlayerIndex + j) % game.players.length ∧
      (GameService.playerAt game.players
        ((GameService.moveToNextPlayer game).currentPlayerIndex)).isEliminated
        = false ∧
      (∀ k, 1 ≤ k → k < j →
        (GameService.playerAt game.players
          ((game.currentPlayerIndex + k) % game.players.length)).isEliminated
          = true) ∧
      (GameService.moveToNextPlayer game).status = game.status ∧
      (GameService.moveToNextPlayer game).players = game.players ∧
      (GameService.moveToNextPlayer game).currentTurnEndsAt
        = game.currentTurnEndsAt ∧
      (GameService.moveToNextPlayer game).attemptsUsed = game.attemptsUsed := by
  have hlen : 0 < game.players.length := by
    unfold GameService.activeCount at h2
    have := List.length_filter_le (fun p => ¬ p.isEliminated) game.players
    omega
  have hstart : (game.currentPlayerIndex + 1) % game.players.length
      < game.players.length := Nat.mod_lt _ hlen
  obtain ⟨j0, hj0len, hj0act, hj0min⟩ := exists_first_active game.players
    ((game.currentPlayerIndex + 1) % game.players.length) hstart
    (exists_active_of_activeCount_pos _ (by omega))
  have hloop := moveLoop_spec game.players j0
    ((game.currentPlayerIndex + 1) % game.players.length) 0 hstart
    (by omega) hj0act hj0min
  have hno : ¬ (GameService.activeCount game.players ≤ 1) := by omega
  have hres : (GameService.moveToNextPlayer game).currentPlayerIndex
      = (game.currentPlayerIndex + (1 + j0)) % game.players.length := by
    unfold GameService.moveToNextPlayer
    rw [if_neg hno]
    simp only [hloop]
    rw [Nat.mod_add_mod]
    congr 1
    omega
  refine ⟨1 + j0, by omega, by omega, hres, ?_, ?_, ?_, ?_, ?_, ?_⟩
  · rw [hres, show game.currentPlayerIndex + (1 + j0)
      = game.currentPlayerIndex + 1 + j0 by omega, ← Nat.mod_add_mod]
    exact hj0act
  · intro k hk1 hkj
    have := hj0min (k - 1) (by omega)
    rw [Nat.mod_add_mod, show game.currentPlayerIndex + 1 + (k - 1)
      = game.currentPlayerIndex + k by omega] at this
    exact this
  all_goals
    unfold GameService.moveToNextPlayer
    rw [if_neg hno]

/-- C1 amended, part (ii) as a standalone composition: the timer-driven
timeout path eliminates the holder, and — when at least two players remain
active — advances `currentHolderIndex` to the next non-eliminated player in
round-robin order and opens a fresh turn (30 s deadline, attempts reset). -/
theorem handleTurnTimeout_advances (game : Game) (now : Nat) (p : Player)
    (hst : game.status = .in_progress)
    (hexp : GameService.isTurnExpired game now = true)
    (hp : game.players.get? game.currentPlayerIndex = some p)
    (hel : p.isEliminated = false)
    (h2 : 2 ≤ GameService.activeCount
      ((GameService.eliminatePlayer game p.id (some .TIMEOUT)).players)) :
    (GameManager.handleTurnTimeout game now).status = .in_progress ∧
    (GameManager.handleTurnTimeout game now).currentTurnEndsAt
      = some (now + GameService.TURN_DURATION_MS) ∧
    (GameManager.handleTurnTimeout game now).attemptsUsed = some 0 ∧
    ∃ j, 1 ≤ j ∧ j ≤ game.players.length ∧
      (GameManager.handleTurnTimeout game now).currentPlayerIndex
        = (game.currentPlayerIndex + j) % game.players.length ∧
      (GameService.playerAt
        ((GameService.eliminatePlayer game p.id (some .TIMEOUT)).players)
        ((GameManager.handleTurnTimeout game now).currentPlayerIndex)).isEliminated
        = false ∧
      ∀ k, 1 ≤ k → k < j →
        (GameService.playerAt
          ((GameService.eliminatePlayer game p.id (some .TIMEOUT)).players)
          ((game.currentPlayerIndex + k) % game.players.length)).isEliminated
          = true := by
  -- names for the intermediate states of the source
  set updatedGame := GameService.eliminatePlayer game p.id (some .TIMEOUT)
    with hupd
  set turn := createTurn p.id "" false (some (game.attemptsUsed.getD 0)) none
    (some .TIMEOUT) now with hturn
  set gameWithTurn : Game := { updatedGame with
    turns := updatedGame.turns ++ [turn] } with hgwt
  have hplayers : gameWithTurn.players = updatedGame.players := rfl
  have hstatus : gameWithTurn.status = GameStatus.in_progress := by
    show updatedGame.status = GameStatus.in_progress
    rw [hupd]
    unfold GameService.eliminatePlayer
    simp only
    rw [if_neg (by
      have : GameService.activeCount updatedGame.players
          = GameService.activeCount
            (game.players.map (fun player =>
              if player.id = p.id then { player with isEliminated := true }
              else player)) := by rw [hupd]; rfl
      omega), hst]
  have hlen : gameWithTurn.players.length = game.players.length := by
    rw [hplayers, hupd]
    unfold GameService.eliminatePlayer
    simp
  have hidx : gameWithTurn.currentPlayerIndex = game.currentPlayerIndex := rfl
  have h2' : 2 ≤ GameService.activeCount gameWithTurn.players := by
    rw [hplayers]; exact h2
  obtain ⟨j, hj1, hjlen, hjidx, hjact, hjmin, hmstat, hmpl, _, _⟩ :=
    moveToNextPlayer_advances gameWithTurn h2'
  have hlen0 : 0 < game.players.length := by omega
  -- the handleTurnTimeout guards all pass
  have hunfold : GameManager.handleTurnTimeout game now
      = GameService.startTurn (GameService.moveToNextPlayer gameWithTurn) now := by
    unfold GameManager.handleTurnTimeout
    rw [if_neg (by simp [hst, hexp])]
    simp only [hp]
    rw [if_neg (by simp [hel])]
    rw [if_pos (by rw [hmstat, hstatus])]
  -- the new holder is in range and non-eliminated, so startTurn opens a turn
  have hidx2 : (GameService.moveToNextPlayer gameWithTurn).currentPlayerIndex
      < gameWithTurn.players.length := by
    rw [hjidx, hidx, hlen]
    exact Nat.mod_lt _ hlen0
  have hget : (GameService.moveToNextPlayer gameWithTurn).players.get?
      (GameService.moveToNextPlayer gameWithTurn).currentPlayerIndex
      = some (GameService.playerAt gameWithTurn.players
          (GameService.moveToNextPlayer gameWithTurn).currentPlayerIndex) := by
    rw [hmpl, List.get?_eq_getElem?,
      List.getElem?_eq_getElem hidx2,
      playerAt_eq_getElem _ _ hidx2]
  have hstart : GameService.startTurn (GameService.moveToNextPlayer gameWithTurn) now
      = { GameService.moveToNextPlayer gameWithTurn with
          currentTurnEndsAt := some (now + GameService.TURN_DURATION_MS)
          attemptsUsed := some 0 } := by
    unfold GameService.startTurn
    rw [hget]
    simp only [hjact, Bool.false_eq_true, ite_false, if_false]
  rw [hunfold, hstart]
  refine ⟨by simpa [hmstat] using hstatus, rfl, rfl, j, hj1, ?_, ?_, ?_, ?_⟩
  · omega
  · show (GameService.moveToNextPlayer gameWithTurn).currentPlayerIndex = _
    rw [hjidx, hidx, hlen]
  · show (GameService.playerAt updatedGame.players
      (GameService.moveToNextPlayer gameWithTurn).currentPlayerIndex).isEliminated = false
    rw [← hplayers]
    exact hjact
  · intro k hk1 hkj
    have := hjmin k hk1 hkj
    rw [hidx, hlen] at this
    rw [← hplayers]
    exact this

/-- C1 amended: (i) an elimination makes the status `FINISHED` if and only
if at most one non-eliminated participant remains afterwards; (ii) the
timer-driven timeout path then — when the game is not finished — advances
`currentPlayerIndex` to the next non-eliminated participant in round-robin
order (skipping exactly the eliminated ones) and opens a fresh turn via
`startTurn` (30 s deadline, `attemptsUsed = 0`); but (iii) an elimination
performed inside `proposeArtist` (here the `REPEAT` branch) does NOT
advance: `currentPlayerIndex` and `currentTurnEndsAt` are unchanged. -/
theorem C1_elimination_amended
    (game1 : Game) (pid1 : String) (reason1 : Option InvalidReason)
    (h1 : game1.status = .in_progress)
    (game : Game) (now : Nat) (p : Player)
    (hst : game.status = .in_progress)
    (hexp : GameService.isTurnExpired game now = true)
    (hp : game.players.get? game.currentPlayerIndex = some p)
    (hel : p.isEliminated = false)
    (h2 : 2 ≤ GameService.activeCount
      ((GameService.eliminatePlayer game p.id (some .TIMEOUT)).players))
    (game3 : Game) (pid3 name3 : String) (now3 : Nat) (v3 : ValidationResult)
    (p3 : Player)
    (hst3 : game3.status = .in_progress)
    (hp3 : game3.players.get? game3.currentPlayerIndex = some p3)
    (hid3 : p3.id = pid3) (hel3 : p3.isEliminated = false)
    (hexp3 : GameService.isTurnExpired game3 now3 = false)
    (hbud3 : game3.attemptsUsed.getD 0 + 1 ≤ GameService.MAX_ATTEMPTS_PER_TURN)
    (hex3 : v3.existsArtist = true)
    (hused3 : GameService.isArtistUsed game3 v3.canonical = true) :
    ((GameService.eliminatePlayer game1 pid1 reason1).status = .finished ↔
      GameService.activeCount
        (GameService.eliminatePlayer game1 pid1 reason1).players ≤ 1) ∧
    ((GameManager.handleTurnTimeout game now).status = .in_progress ∧
     (GameManager.handleTurnTimeout game now).currentTurnEndsAt
       = some (now + GameService.TURN_DURATION_MS) ∧
     (GameManager.handleTurnTimeout game now).attemptsUsed = some 0 ∧
     ∃ j, 1 ≤ j ∧ j ≤ game.players.length ∧
       (GameManager.handleTurnTimeout game now).currentPlayerIndex
         = (game.currentPlayerIndex + j) % game.players.length ∧
       (GameService.playerAt
         ((GameService.eliminatePlayer game p.id (some .TIMEOUT)).players)
         ((GameManager.handleTurnTimeout game now).currentPlayerIndex)).isEliminated
         = false ∧
       ∀ k, 1 ≤ k → k < j →
         (GameService.playerAt
           ((GameService.eliminatePlayer game p.id (some .TIMEOUT)).players)
           ((game.currentPlayerIndex + k) % game.players.length)).isEliminated
           = true) ∧
    (∃ r, GameService.proposeArtist game3 pid3 name3 now3 (.ok v3) = .ok r ∧
      r.game.currentPlayerIndex = game3.currentPlayerIndex ∧
      r.game.currentTurnEndsAt = game3.currentTurnEndsAt ∧
      r.turn.invalidReason = some .REPEAT) := by
  refine ⟨?_, handleTurnTimeout_advances game now p hst hexp hp hel h2, ?_⟩
  · unfold GameService.eliminatePlayer
    simp only
    by_cases hc : GameService.activeCount
        (game1.players.map (fun player =>
          if player.id = pid1 then { player with isEliminated := true }
          else player)) ≤ 1 <;>
      simp [hc, h1]
  · have hb3 : ¬ (game3.attemptsUsed.getD 0 + 1
        > GameService.MAX_ATTEMPTS_PER_TURN) := by omega
    unfold GameService.proposeArtist
    simp only [hst3, hp3, hid3, hel3, hexp3, hb3, hex3, hused3, and_true,
      ne_eq, not_true_eq_false, Bool.false_eq_true, ite_false, if_false,
      reduceCtorEq, ite_true, if_true, true_and]
    exact ⟨_, rfl, rfl, rfl, rfl⟩

/-- C1 counterexample: a three-player game in progress; the holder proposes a
repeated artist and is hard-eliminated. Two active players remain, so the
entity does not finish — but contrary to the claim, `currentPlayerIndex`
does not advance and no new turn is opened (`currentTurnEndsAt` keeps the
old deadline, `attemptsUsed` is not reset by `startTurn`): the submit-path
elimination leaves the turn state on the eliminated holder. -/
theorem C1_counterexample :
    (GameService.proposeArtist
      { id := "g1", status := .in_progress,
        players := [{ id := "a", name := "A", isEliminated := false },
                    { id := "b", name := "B", isEliminated := false },
                    { id := "c", name := "C", isEliminated := false }],
        turns := [], currentPlayerIndex := 0, lastArtistName := some "Seed",
        lastArtist := some { name := "Seed", mbid := some "M0" },
        usedArtists := ["M0"], currentTurnEndsAt := some 30000,
        attemptsUsed := some 0 }
      "a" "Seed" 10
      (.ok { existsArtist := true, validRelation := true,
             canonical := { name := "Seed", mbid := some "M0" } })).map
      (fun r => (r.turn.invalidReason, r.game.status,
        r.game.currentPlayerIndex, r.game.currentTurnEndsAt,
        (r.game.players.map Player.isEliminated)))
      = .ok (some .REPEAT, .in_progress, 0, some 30000, [true, false, false]) := by
  decide

/-- Witness for C1 amended: a concrete three-player game whose timer fires;
the entity stays in progress, the deadline is reset to `now + 30s` and the
attempt counter to 0. -/
theorem C1_witness :
    (GameManager.handleTurnTimeout
      { id := "g1w", status := .in_progress,
        players := [{ id := "a", name := "A", isEliminated := false },
                    { id := "b", name := "B", isEliminated := false },
                    { id := "c", name := "C", isEliminated := false }],
        turns := [], currentPlayerIndex := 0, lastArtistName := none,
        usedArtists := [], currentTurnEndsAt := some 100,
        attemptsUsed := some 1 }
      100).status = .in_progress ∧
    (GameManager.handleTurnTimeout
      { id := "g1w", status := .in_progress,
        players := [{ id := "a", name := "A", isEliminated := false },
                    { id := "b", name := "B", isEliminated := false },
                    { id := "c", name := "C", isEliminated := false }],
        turns := [], currentPlayerIndex := 0, lastArtistName := none,
        usedArtists := [], currentTurnEndsAt := some 100,
        attemptsUsed := some 1 }
      100).currentTurnEndsAt = some (100 + GameService.TURN_DURATION_MS) ∧
    (GameManager.handleTurnTimeout
      { id := "g1w", status := .in_progress,
        players := [{ id := "a", name := "A", isEliminated := false },
                    { id := "b", name := "B", isEliminated := false },
                    { id := "c", name := "C", isEliminated := false }],
        turns := [], currentPlayerIndex := 0, lastArtistName := none,
        usedArtists := [], currentTurnEndsAt := some 100,
        attemptsUsed := some 1 }
      100).attemptsUsed = some 0 := by
  have h := C1_elimination_amended
    { id := "g1i", status := .in_progress,
      players := [{ id := "x", name := "X", isEliminated := false }],
      turns := [], currentPlayerIndex := 0, lastArtistName := none,
      usedArtists := [] }
    "x" none rfl
    { id := "g1w", status := .in_progress,
      players := [{ id := "a", name := "A", isEliminated := false },
                  { id := "b", name := "B", isEliminated := false },
                  { id := "c", name := "C", isEliminated := false }],
      turns := [], currentPlayerIndex := 0, lastArtistName := none,
      usedArtists := [], currentTurnEndsAt := some 100,
      attemptsUsed := some 1 }
    100 { id := "a", name := "A", isEliminated := false }
    rfl (by decide) rfl rfl (by decide)
    { id := "g1s", status := .in_progress,
      players := [{ id := "a", name := "A", isEliminated := false },
                  { id := "b", name := "B", isEliminated := false }],
      turns := [], currentPlayerIndex := 0, lastArtistName := some "Seed",
      lastArtist := some { name := "Seed", mbid := some "M9" },
      usedArtists := ["M9"], currentTurnEndsAt := some 30000,
      attemptsUsed := some 0 }
    "a" "Seed" 10
    { existsArtist := true, validRelation := true,
      canonical := { name := "Seed", mbid := some "M9" } }
    { id := "a", name := "A", isEliminated := false }
    rfl rfl rfl rfl (by decide) (by decide) rfl (by decide)
  exact ⟨h.2.1.1, h.2.1.2.1, h.2.1.2.2.1⟩
